import Mathlib

/-!
# sig0namectl — the Go/JS bridge `golang/wasm/wrapper_js.go`

A shallow embedding of the orchestration code of `wrapper_js.go`: the key
status check (`checkKeyStatus`), the endpoint lookup (`findDOHEndpoint`), the
key request (`newKeyRequest`) and the update transaction (`newUpdater` with
its finalizers `signedUpdate` and `unsignedUpdate`).

Modelling conventions.

* Go strings are Lean strings.  `strings.HasSuffix` and `strings.TrimSuffix`
  work on bytes; on well-formed UTF-8 text a byte suffix and a code-point
  suffix are the same thing, so they are embedded on the code points.
* The calls into package `sig0` are external collaborators.  They are the
  fields of `Collab σ`: each takes the current world `σ` and returns its Go
  result together with the next world, so that every behaviour of the
  collaborators (also one that answers differently on each call) is covered.
* A goroutine body is a function from the world to the list of events it
  produces, in order: every collaborator call it makes and every invocation
  of the promise callbacks `resolve` and `reject`.  A Go `return` ends the
  list.  `log.Println` and `spew.Dump` are not recorded.
* `uint16`, `uint8` and `int` fields are natural numbers and integers; the
  code only compares them for equality.
-/

namespace Sig0Wasm

/-! ## Data model (the parts of `miekg/dns` the file reads) -/

/-- The header of a resource record: only the owner name is read. -/
structure RR_Header where
  Name : String
  deriving DecidableEq

/-- A `dns.KEY` record. -/
structure KEY where
  Hdr : RR_Header
  Flags : Nat
  Protocol : Nat
  Algorithm : Nat
  PublicKey : String
  deriving DecidableEq

/-- A `dns.PTR` record. -/
structure PTR where
  Hdr : RR_Header
  Ptr : String
  deriving DecidableEq

/-- The interface `dns.RR`, by dynamic type: a `*dns.KEY`, a `*dns.PTR`, or a
record of any other type (given by its type number). -/
inductive RR where
  | KEY (k : KEY)
  | PTR (p : PTR)
  | other (hdr : RR_Header) (rrtype : Nat)
  deriving DecidableEq

/-- A question of a DNS message: name and type. -/
structure Question where
  Name : String
  Qtype : Nat
  deriving DecidableEq

/-- A `dns.Msg`: response code, question, answer and authority sections. -/
structure Msg where
  Rcode : Int
  Question : List Question
  Answer : List RR
  Ns : List RR
  deriving DecidableEq

/-- The constant `dns.RcodeSuccess`. -/
def RcodeSuccess : Int := 0

/-- The constant `dns.RcodeNameError` (name does not exist). -/
def RcodeNameError : Int := 3

/-- The constant `dns.TypeKEY`. -/
def TypeKEY : Nat := 25

/-- The constant `dns.TypePTR`. -/
def TypePTR : Nat := 12

/-- A Go `error` value.  The errors made by `fmt.Errorf` in this file keep the
arguments they format instead of the formatted text. -/
inductive GoError where
  /-- An error returned by a call into package `sig0`. -/
  | collaborator (text : String)
  /-- Line 135: "answer is not a KEY type: %T" of the record. -/
  | notKEYType (rr : RR)
  /-- Line 152: "did not get KEY RR success answer" with the message. -/
  | noKEYSuccess (answer : Msg)
  /-- Line 180: "answer is not a PTR type: %T" of the record. -/
  | notPTRType (rr : RR)
  /-- Line 194: "did not get PTR RR success answer" with the message. -/
  | noPTRSuccess (answer : Msg)
  /-- Lines 380 and 416: "did not get success answer" with the message. -/
  | noSuccess (answer : Msg)
  /-- Line 260: "request loop failed: %w" wrapping the cause. -/
  | requestLoopFailed (cause : GoError)
  deriving DecidableEq

/-- The result object of `checkKeyStatus` (lines 199-202): both fields are
strings, made by `strconv.FormatBool`. -/
structure KeyStatus where
  QueuePTRExists : String
  KeyRRExists : String
  deriving DecidableEq

/-- A value handed to JavaScript. -/
inductive JSValue where
  /-- The value `js.Null()`. -/
  | null
  /-- A JavaScript string. -/
  | string (s : String)
  /-- An `Error` object made by `jsErr`. -/
  | Error (err : GoError)
  /-- The string `err.Error()` of a Go error. -/
  | errorText (err : GoError)
  /-- The status object of `checkKeyStatus`. -/
  | status (r : KeyStatus)
  deriving DecidableEq

/-- What a task does, in order. -/
inductive Event where
  | LoadKeyFile (name : String)
  | QueryKEY (name : String)
  | QueryPTR (name : String)
  | SendDOHQuery (server : String) (msg : Msg)
  | FindDOHEndpoint (domain : String)
  | RequestKey (domain : String)
  | StartUpdate (zone : String)
  | SignUpdate
  | UnsignedUpdate (zone : String)
  | resolve (v : JSValue)
  | reject (v : JSValue)
  deriving DecidableEq

/-- The external collaborators (package `sig0`), with the world passed
explicitly.  `Option GoError` is a Go `error` result (`none` is `nil`). -/
structure Collab (σ : Type) where
  LoadKeyFile : σ → String → Except GoError KEY × σ
  QueryKEY : σ → String → Except GoError Msg × σ
  QueryPTR : σ → String → Except GoError Msg × σ
  SendDOHQuery : σ → String → Msg → Except GoError Msg × σ
  FindDOHEndpoint : σ → String → Except GoError String × σ
  RequestKey : σ → String → Option GoError × σ
  StartUpdate : σ → String → Option GoError × σ
  UpdateParsedRR : σ → String → Option GoError × σ
  RemoveParsedRR : σ → String → Option GoError × σ
  RemoveParsedRRset : σ → String → Option GoError × σ
  RemoveParsedName : σ → String → Option GoError × σ
  SignUpdate : σ → Except GoError Msg × σ
  UnsignedUpdate : σ → String → Except GoError Msg × σ

/-! ## Go standard library -/

/-- Go `strings.HasSuffix`:
`len(s) >= len(suffix) && s[len(s)-len(suffix):] == suffix`. -/
def HasSuffix (s suffix : String) : Bool :=
  decide (s.data.length ≥ suffix.data.length) &&
    (s.data.drop (s.data.length - suffix.data.length) == suffix.data)

/-- Go `strings.TrimSuffix`: `s[:len(s)-len(suffix)]` when `s` has the
suffix, else `s`. -/
def TrimSuffix (s suffix : String) : String :=
  if HasSuffix s suffix then
    String.mk (s.data.take (s.data.length - suffix.data.length))
  else s

/-- Go `strconv.FormatBool`. -/
def FormatBool (b : Bool) : String :=
  if b then "true" else "false"

/-! ## Utilities (lines 443-448) -/

/-- The function `jsErr`: a JavaScript `Error` carrying the Go error. -/
def jsErr (err : GoError) : JSValue :=
  JSValue.Error err

/-- Modelled from the spec: the constant `sig0.SignalSubzonePrefix` is declared
in package `sig0`, which is not part of the sources at hand; the spec gives the
signal subzone of a zone as "_signal." followed by the zone. -/
def SignalSubzonePrefix : String := "_signal"

/-! ## checkKeyStatus (lines 85-210) -/

/-- The condition of lines 140-143: the answer equals the loaded key on
flags, protocol, algorithm and public key. -/
def sameKey (answerKey key : KEY) : Prop :=
  answerKey.Flags = key.Flags ∧
    answerKey.Protocol = key.Protocol ∧
    answerKey.Algorithm = key.Algorithm ∧
    answerKey.PublicKey = key.PublicKey

instance (answerKey key : KEY) : Decidable (sameKey answerKey key) := by
  unfold sameKey; infer_instance

/-- The loop of lines 132-147 over the answers of the KEY response: an error
is the `reject` and `return` of lines 135-137, a value is `keyRRExists` when
the loop ends (by exhaustion or by the `break` of line 145). -/
def keyAnswerLoop (key : KEY) : List RR → Except GoError Bool
  | [] => Except.ok false
  | rr :: rest =>
    match rr with
    | RR.KEY answerKey =>
      if sameKey answerKey key then Except.ok true
      else keyAnswerLoop key rest
    | _ => Except.error (GoError.notKEYType rr)

/-- The loop of lines 177-189 over the answers of the PTR response: an error
is the `reject` and `return` of lines 180-182, a value is `signalPTRExists`
when the loop ends. -/
def ptrAnswerLoop (signalKeyRRName : String) : List RR → Except GoError Bool
  | [] => Except.ok false
  | rr :: rest =>
    match rr with
    | RR.PTR ptrRR =>
      if ptrRR.Ptr = signalKeyRRName then Except.ok true
      else ptrAnswerLoop signalKeyRRName rest
    | _ => Except.error (GoError.notPTRType rr)

/-- Line 157: the name of the PTR query. -/
def signalPtrRRName (zone : String) : String :=
  SignalSubzonePrefix ++ "." ++ zone

/-- Lines 158-159: the enrollment-marker name of a key in a zone. -/
def signalKeyRRName (keyFqdn zone : String) : String :=
  TrimSuffix keyFqdn ("." ++ zone) ++ "." ++ SignalSubzonePrefix ++ "." ++ zone

/-- Lines 156-202 of the goroutine of `checkKeyStatus`: everything after the
`switch` on the KEY response.  `keyRRExists` is the variable set by that
switch and `answerKeyRR` the KEY response (line 194 formats it). -/
def checkKeyStatusSignal {σ : Type} (c : Collab σ) (keyFqdn zone dohServer : String)
    (keyRRExists : Bool) (answerKeyRR : Msg) (w : σ) : List Event × σ :=
  match c.QueryPTR w (signalPtrRRName zone) with
  | (Except.error err, w1) =>
    ([Event.QueryPTR (signalPtrRRName zone), Event.reject (jsErr err)], w1)
  | (Except.ok msgSigPtr, w1) =>
    match c.SendDOHQuery w1 dohServer msgSigPtr with
    | (Except.error err, w2) =>
      ([Event.QueryPTR (signalPtrRRName zone), Event.SendDOHQuery dohServer msgSigPtr,
        Event.reject (jsErr err)], w2)
    | (Except.ok answerSignalPtr, w2) =>
      if answerSignalPtr.Rcode = RcodeSuccess then
        match ptrAnswerLoop (signalKeyRRName keyFqdn zone) answerSignalPtr.Answer with
        | Except.error err =>
          ([Event.QueryPTR (signalPtrRRName zone), Event.SendDOHQuery dohServer msgSigPtr,
            Event.reject (jsErr err)], w2)
        | Except.ok signalPTRExists =>
          ([Event.QueryPTR (signalPtrRRName zone), Event.SendDOHQuery dohServer msgSigPtr,
            Event.resolve (JSValue.status
              { QueuePTRExists := FormatBool signalPTRExists,
                KeyRRExists := FormatBool keyRRExists })], w2)
      else if answerSignalPtr.Rcode = RcodeNameError then
        ([Event.QueryPTR (signalPtrRRName zone), Event.SendDOHQuery dohServer msgSigPtr,
          Event.resolve (JSValue.status
            { QueuePTRExists := FormatBool false,
              KeyRRExists := FormatBool keyRRExists })], w2)
      else
        ([Event.QueryPTR (signalPtrRRName zone), Event.SendDOHQuery dohServer msgSigPtr,
          Event.reject (jsErr (GoError.noPTRSuccess answerKeyRR))], w2)

/-- The events of a first part followed by the run of the rest. -/
def andThen {σ : Type} (done : List Event) (rest : List Event × σ) : List Event × σ :=
  (done ++ rest.1, rest.2)

/-- The goroutine of `checkKeyStatus` (lines 110-203).  In the `default`
case of the first `switch` (lines 151-153) `reject` is invoked and, there
being no `return`, control goes on to line 156. -/
def checkKeyStatusTask {σ : Type} (c : Collab σ) (key : KEY)
    (keyFqdn zone dohServer : String) (w : σ) : List Event × σ :=
  match c.QueryKEY w keyFqdn with
  | (Except.error err, w1) =>
    ([Event.QueryKEY keyFqdn, Event.reject (jsErr err)], w1)
  | (Except.ok msgKey, w1) =>
    match c.SendDOHQuery w1 dohServer msgKey with
    | (Except.error err, w2) =>
      ([Event.QueryKEY keyFqdn, Event.SendDOHQuery dohServer msgKey,
        Event.reject (jsErr err)], w2)
    | (Except.ok answerKeyRR, w2) =>
      if answerKeyRR.Rcode = RcodeSuccess then
        match keyAnswerLoop key answerKeyRR.Answer with
        | Except.error err =>
          ([Event.QueryKEY keyFqdn, Event.SendDOHQuery dohServer msgKey,
            Event.reject (jsErr err)], w2)
        | Except.ok keyRRExists =>
          andThen [Event.QueryKEY keyFqdn, Event.SendDOHQuery dohServer msgKey]
            (checkKeyStatusSignal c keyFqdn zone dohServer keyRRExists answerKeyRR w2)
      else if answerKeyRR.Rcode = RcodeNameError then
        andThen [Event.QueryKEY keyFqdn, Event.SendDOHQuery dohServer msgKey]
          (checkKeyStatusSignal c keyFqdn zone dohServer false answerKeyRR w2)
      else
        andThen [Event.QueryKEY keyFqdn, Event.SendDOHQuery dohServer msgKey,
            Event.reject (jsErr (GoError.noKEYSuccess answerKeyRR))]
          (checkKeyStatusSignal c keyFqdn zone dohServer false answerKeyRR w2)

/-- What a function exported to JavaScript returns: a string, `nil`, or a
promise, given by the run of its task. -/
inductive Returned (σ : Type) where
  | message (s : String)
  | null
  | promise (run : List Event × σ)

/-- Lines 101-103: the zone with a dot appended when it has none. -/
def zoneWithDot (zone : String) : String :=
  if !HasSuffix zone "." then zone ++ "." else zone

/-- The function `checkKeyStatus` (lines 85-210).  The key is loaded before
the promise is made; that call is not among the events of the task. -/
def checkKeyStatus {σ : Type} (c : Collab σ) (args : List String) (w : σ) : Returned σ :=
  match args with
  | [keyFilename, zone, dohServer] =>
    match c.LoadKeyFile w keyFilename with
    | (Except.error _, _) => Returned.null
    | (Except.ok key, w1) =>
      Returned.promise
        (checkKeyStatusTask c key key.Hdr.Name (zoneWithDot zone) dohServer w1)
  | _ =>
    Returned.message "expected 3 arguments: keystore key filename prefix, zone and dohServer"

/-! ## findDOHEndpoint (lines 212-239) and newKeyRequest (lines 244-275) -/

/-- The goroutine of `findDOHEndpoint` (lines 223-231).  The collaborator
gives the URL already as the text `dohUrl.String()`. -/
def findDOHEndpointTask {σ : Type} (c : Collab σ) (dohDomain : String) (w : σ) :
    List Event × σ :=
  match c.FindDOHEndpoint w dohDomain with
  | (Except.error err, w1) =>
    ([Event.FindDOHEndpoint dohDomain, Event.reject (jsErr err)], w1)
  | (Except.ok dohUrl, w1) =>
    ([Event.FindDOHEndpoint dohDomain, Event.resolve (JSValue.string dohUrl)], w1)

/-- The function `findDOHEndpoint` (lines 212-239). -/
def findDOHEndpoint {σ : Type} (c : Collab σ) (args : List String) (w : σ) : Returned σ :=
  match args with
  | [dohDomain] => Returned.promise (findDOHEndpointTask c dohDomain w)
  | _ => Returned.message "expected 1 argument: domainName"

/-- The goroutine of `newKeyRequest` (lines 255-268). -/
def newKeyRequestTask {σ : Type} (c : Collab σ) (domainName : String) (w : σ) :
    List Event × σ :=
  match c.RequestKey w domainName with
  | (some err, w1) =>
    ([Event.RequestKey domainName,
      Event.reject (jsErr (GoError.requestLoopFailed err))], w1)
  | (none, w1) =>
    ([Event.RequestKey domainName, Event.resolve JSValue.null], w1)

/-- The function `newKeyRequest` (lines 244-275). -/
def newKeyRequest {σ : Type} (c : Collab σ) (args : List String) (w : σ) : Returned σ :=
  match args with
  | [domainName, _dohServer] => Returned.promise (newKeyRequestTask c domainName w)
  | _ => Returned.message "expected 2 arguments: domainName and dohServer"

/-! ## newUpdater (lines 288-431) -/

/-- A Go `panic` of `newUpdater`. -/
inductive Panic where
  /-- Line 290. -/
  | message (s : String)
  /-- Line 298: "failed to load key: %w". -/
  | failedToLoadKey (cause : GoError)
  /-- Line 303: "failed to start update: %w". -/
  | failedToStartUpdate (cause : GoError)
  deriving DecidableEq

/-- The object returned by `newUpdater`: its six functions close over the
signer (which lives in the world), `zone` and `dohServer`. -/
structure Updater where
  zone : String
  dohServer : String
  deriving DecidableEq

/-- The function `newUpdater` up to its `return` (lines 288-304), with the
collaborator calls it makes. -/
def newUpdater {σ : Type} (c : Collab σ) (args : List String) (w : σ) :
    Except Panic Updater × List Event × σ :=
  match args with
  | [keyName, zone, dohServer] =>
    match c.LoadKeyFile w keyName with
    | (Except.error err, w1) =>
      (Except.error (Panic.failedToLoadKey err), [Event.LoadKeyFile keyName], w1)
    | (Except.ok _, w1) =>
      match c.StartUpdate w1 zone with
      | (some err, w2) =>
        (Except.error (Panic.failedToStartUpdate err),
          [Event.LoadKeyFile keyName, Event.StartUpdate zone], w2)
      | (none, w2) =>
        (Except.ok { zone := zone, dohServer := dohServer },
          [Event.LoadKeyFile keyName, Event.StartUpdate zone], w2)
  | _ => (Except.error (Panic.message "expected 3 arguments: keyName, zone, dohHostname"), [], w)

/-- The shape shared by `addRR`, `deleteRR`, `deleteRRset` and `deleteName`
(lines 310-357): `null`, or the text of the error. -/
def stagingResult {σ : Type} (r : Option GoError × σ) : JSValue × σ :=
  match r with
  | (some err, w1) => (JSValue.errorText err, w1)
  | (none, w1) => (JSValue.null, w1)

/-- The function `addRR` of the updater (lines 310-317). -/
def Updater.addRR {σ : Type} (c : Collab σ) (_u : Updater) (rr : String) (w : σ) :
    JSValue × σ :=
  stagingResult (c.UpdateParsedRR w rr)

/-- The function `deleteRR` of the updater (lines 323-330). -/
def Updater.deleteRR {σ : Type} (c : Collab σ) (_u : Updater) (rr : String) (w : σ) :
    JSValue × σ :=
  stagingResult (c.RemoveParsedRR w rr)

/-- The function `deleteRRset` of the updater (lines 336-343). -/
def Updater.deleteRRset {σ : Type} (c : Collab σ) (_u : Updater) (rr : String) (w : σ) :
    JSValue × σ :=
  stagingResult (c.RemoveParsedRRset w rr)

/-- The function `deleteName` of the updater (lines 350-357). -/
def Updater.deleteName {σ : Type} (c : Collab σ) (_u : Updater) (rr : String) (w : σ) :
    JSValue × σ :=
  stagingResult (c.RemoveParsedName w rr)

/-- The goroutine of `signedUpdate` (lines 368-386). -/
def Updater.signedUpdate {σ : Type} (c : Collab σ) (u : Updater) (w : σ) :
    List Event × σ :=
  match c.SignUpdate w with
  | (Except.error err, w1) =>
    ([Event.SignUpdate, Event.reject (jsErr err)], w1)
  | (Except.ok msg, w1) =>
    match c.SendDOHQuery w1 u.dohServer msg with
    | (Except.error err, w2) =>
      ([Event.SignUpdate, Event.SendDOHQuery u.dohServer msg, Event.reject (jsErr err)], w2)
    | (Except.ok answer, w2) =>
      if answer.Rcode ≠ RcodeSuccess then
        ([Event.SignUpdate, Event.SendDOHQuery u.dohServer msg,
          Event.reject (jsErr (GoError.noSuccess answer))], w2)
      else
        ([Event.SignUpdate, Event.SendDOHQuery u.dohServer msg,
          Event.resolve JSValue.null], w2)

/-- The goroutine of `unsignedUpdate` (lines 404-422). -/
def Updater.unsignedUpdate {σ : Type} (c : Collab σ) (u : Updater) (w : σ) :
    List Event × σ :=
  match c.UnsignedUpdate w u.zone with
  | (Except.error err, w1) =>
    ([Event.UnsignedUpdate u.zone, Event.reject (jsErr err)], w1)
  | (Except.ok msg, w1) =>
    match c.SendDOHQuery w1 u.dohServer msg with
    | (Except.error err, w2) =>
      ([Event.UnsignedUpdate u.zone, Event.SendDOHQuery u.dohServer msg,
        Event.reject (jsErr err)], w2)
    | (Except.ok answer, w2) =>
      if answer.Rcode ≠ RcodeSuccess then
        ([Event.UnsignedUpdate u.zone, Event.SendDOHQuery u.dohServer msg,
          Event.reject (jsErr (GoError.noSuccess answer))], w2)
      else
        ([Event.UnsignedUpdate u.zone, Event.SendDOHQuery u.dohServer msg,
          Event.resolve JSValue.null], w2)

/-! ## The completion contract, on a list of events -/

/-- An invocation of `resolve` or `reject`. -/
def Event.isSettle : Event → Bool
  | Event.resolve _ => true
  | Event.reject _ => true
  | _ => false

/-- An invocation of `reject`. -/
def Event.isReject : Event → Bool
  | Event.reject _ => true
  | _ => false

/-- A call of a collaborator. -/
def Event.isCall (e : Event) : Bool :=
  !e.isSettle

/-- How often `resolve` or `reject` is invoked. -/
def settleCount (t : List Event) : Nat :=
  (t.filter Event.isSettle).length

/-- Whether some collaborator call comes after an invocation of `reject`. -/
def callAfterReject : List Event → Bool
  | [] => false
  | e :: rest => (e.isReject && rest.any Event.isCall) || callAfterReject rest

/-- The completion contract: one invocation of `resolve` or `reject` in
total, and no collaborator call after a `reject`. -/
def CompletionContract (t : List Event) : Prop :=
  settleCount t = 1 ∧ callAfterReject t = false

instance (t : List Event) : Decidable (CompletionContract t) := by
  unfold CompletionContract; infer_instance

/-! ## The contract of a finalizer, in the words of the spec -/

/-- What the spec asks of a finalizer whose message construction gave `built`
(recorded as `buildEvent`) and which sends to `dohServer`: it resolves, with
`null`, if and only if construction, sending and the response code all
succeed; otherwise it rejects with the first error in the order construction,
transport, response code; nothing is sent when construction fails. -/
def FinalizerContract {σ : Type} (c : Collab σ) (dohServer : String)
    (built : Except GoError Msg × σ) (buildEvent : Event) (trace : List Event) : Prop :=
  ((∃ v, Event.resolve v ∈ trace) ↔
    ∃ msg w1 answer w2, built = (Except.ok msg, w1) ∧
      c.SendDOHQuery w1 dohServer msg = (Except.ok answer, w2) ∧
      answer.Rcode = RcodeSuccess) ∧
  (∀ v, Event.resolve v ∈ trace → v = JSValue.null) ∧
  (∀ err w1, built = (Except.error err, w1) →
    trace = [buildEvent, Event.reject (jsErr err)]) ∧
  (∀ msg w1 err w2, built = (Except.ok msg, w1) →
    c.SendDOHQuery w1 dohServer msg = (Except.error err, w2) →
    trace = [buildEvent, Event.SendDOHQuery dohServer msg, Event.reject (jsErr err)]) ∧
  (∀ msg w1 answer w2, built = (Except.ok msg, w1) →
    c.SendDOHQuery w1 dohServer msg = (Except.ok answer, w2) →
    answer.Rcode ≠ RcodeSuccess →
    trace = [buildEvent, Event.SendDOHQuery dohServer msg,
      Event.reject (jsErr (GoError.noSuccess answer))]) ∧
  (∀ msg w1 answer w2, built = (Except.ok msg, w1) →
    c.SendDOHQuery w1 dohServer msg = (Except.ok answer, w2) →
    answer.Rcode = RcodeSuccess →
    trace = [buildEvent, Event.SendDOHQuery dohServer msg, Event.resolve JSValue.null])

/-! ## The use of an updater by its caller -/

/-- The two finalizers of an updater. -/
inductive Finalizer where
  | signed
  | unsigned
  deriving DecidableEq

/-- A call of one of the six functions of an updater. -/
inductive Action where
  | addRR (rr : String)
  | deleteRR (rr : String)
  | deleteRRset (rr : String)
  | deleteName (rr : String)
  | commit (f : Finalizer)
  deriving DecidableEq

/-- The run of a finalizer of the updater. -/
def Updater.commit {σ : Type} (c : Collab σ) (u : Updater) (f : Finalizer) (w : σ) :
    List Event × σ :=
  match f with
  | Finalizer.signed => Updater.signedUpdate c u w
  | Finalizer.unsigned => Updater.unsignedUpdate c u w

/-- The world after a call of one of the functions of the updater (a
finalizer run to its end). -/
def Updater.act {σ : Type} (c : Collab σ) (u : Updater) (a : Action) (w : σ) : σ :=
  match a with
  | Action.addRR rr => (Updater.addRR c u rr w).2
  | Action.deleteRR rr => (Updater.deleteRR c u rr w).2
  | Action.deleteRRset rr => (Updater.deleteRRset c u rr w).2
  | Action.deleteName rr => (Updater.deleteName c u rr w).2
  | Action.commit f => (Updater.commit c u f w).2

/-- The world after a sequence of calls, one after the other. -/
def Updater.actAll {σ : Type} (c : Collab σ) (u : Updater) (as : List Action) (w : σ) : σ :=
  as.foldl (fun x a => Updater.act c u a x) w

/-! ## The signer, from the spec -/

/-- The four kinds of staged operations. -/
inductive StagingKind where
  | addRecord
  | deleteRecord
  | deleteRRset
  | deleteName
  deriving DecidableEq

/-- Modelled from the spec: the update session held by the signer, whose code
(type `Signer` of package `sig0` with `StartUpdate`, `UpdateParsedRR`,
`RemoveParsedRR`, `RemoveParsedRRset`, `RemoveParsedName`, `SignUpdate` and
`UnsignedUpdate`) is not part of the sources at hand.  The spec: an update
transaction is bound to one zone, "holds an ordered sequence of pending record
operations", and is "finalized exactly once by either a signed or unsigned
commit, after which further finalization must fail (single-use invariant —
commit is consumed, not idempotent)". -/
structure Session where
  zone : String
  pending : List (StagingKind × String)
  consumed : Bool
  deriving DecidableEq

/-- Modelled from the spec: what the spec leaves to the signer (section 6):
whether the key may update a zone (`startUpdateSession`), whether a record
text parses (`parseAndStageRR`), and the messages made by `signUpdate` and
`buildUnsignedUpdate`, each of which may fail. -/
structure SignerModel where
  authorize : String → Option GoError
  parseRR : StagingKind → String → Option GoError
  sign : Session → Except GoError Msg
  buildUnsigned : Session → String → Except GoError Msg
  reused : GoError

/-- Modelled from the spec: `parseAndStageRR` of section 6; a record text that
parses is appended to the pending operations, one that does not is reported
and leaves them as they are. -/
def Session.stage (m : SignerModel) (kind : StagingKind) (text : String) (s : Session) :
    Option GoError × Session :=
  match m.parseRR kind text with
  | some err => (some err, s)
  | none => (none, { s with pending := s.pending ++ [(kind, text)] })

/-- Modelled from the spec: `signUpdate` of section 6, which "consumes the
transaction" (section 4.3); on a consumed session it fails. -/
def Session.signUpdate (m : SignerModel) (s : Session) : Except GoError Msg × Session :=
  if s.consumed then (Except.error m.reused, s)
  else (m.sign s, { s with consumed := true })

/-- Modelled from the spec: `buildUnsignedUpdate` of section 6, which
"consumes the transaction" (section 4.3); on a consumed session it fails. -/
def Session.buildUnsignedUpdate (m : SignerModel) (zone : String) (s : Session) :
    Except GoError Msg × Session :=
  if s.consumed then (Except.error m.reused, s)
  else (m.buildUnsigned s zone, { s with consumed := true })

/-- Modelled from the spec: `startUpdateSession` of section 6; a fresh session
for the zone, or an authorization error. -/
def Session.start (m : SignerModel) (zone : String) (s : Session) :
    Option GoError × Session :=
  match m.authorize zone with
  | some err => (some err, s)
  | none => (none, { zone := zone, pending := [], consumed := false })

/-- An operation of the other collaborators, on a world that also holds the
session. -/
def besideSession {τ α : Type} (f : τ → α × τ) (w : Session × τ) : α × (Session × τ) :=
  ((f w.2).1, (w.1, (f w.2).2))

/-- An operation of the signer, on a world that also holds the state of the
other collaborators. -/
def onSession {τ α : Type} (f : Session → α × Session) (w : Session × τ) :
    α × (Session × τ) :=
  ((f w.1).1, ((f w.1).2, w.2))

/-- Modelled from the spec: the collaborators with the signer of the spec in
place of the one of `base`; everything else (key loading, queries, transport)
is as in `base`. -/
def withSpecSigner {τ : Type} (m : SignerModel) (base : Collab τ) : Collab (Session × τ) where
  LoadKeyFile w name := besideSession (fun t => base.LoadKeyFile t name) w
  QueryKEY w name := besideSession (fun t => base.QueryKEY t name) w
  QueryPTR w name := besideSession (fun t => base.QueryPTR t name) w
  SendDOHQuery w server msg := besideSession (fun t => base.SendDOHQuery t server msg) w
  FindDOHEndpoint w domain := besideSession (fun t => base.FindDOHEndpoint t domain) w
  RequestKey w domain := besideSession (fun t => base.RequestKey t domain) w
  StartUpdate w zone := onSession (Session.start m zone) w
  UpdateParsedRR w rr := onSession (Session.stage m StagingKind.addRecord rr) w
  RemoveParsedRR w rr := onSession (Session.stage m StagingKind.deleteRecord rr) w
  RemoveParsedRRset w rr := onSession (Session.stage m StagingKind.deleteRRset rr) w
  RemoveParsedName w rr := onSession (Session.stage m StagingKind.deleteName rr) w
  SignUpdate w := onSession (Session.signUpdate m) w
  UnsignedUpdate w zone := onSession (Session.buildUnsignedUpdate m zone) w

/-! ## Scripted collaborators, for concrete runs -/

/-- A world for concrete runs: the replies the transport will give, in order,
and what the signer answers. -/
structure Script where
  replies : List (Except GoError Msg)
  signer : Except GoError Msg

/-- Collaborators that follow a `Script`: queries are built from their name,
the transport hands out the scripted replies one after the other. -/
def scripted (key : KEY) : Collab Script where
  LoadKeyFile w _ := (Except.ok key, w)
  QueryKEY w name :=
    (Except.ok { Rcode := 0, Question := [⟨name, TypeKEY⟩], Answer := [], Ns := [] }, w)
  QueryPTR w name :=
    (Except.ok { Rcode := 0, Question := [⟨name, TypePTR⟩], Answer := [], Ns := [] }, w)
  SendDOHQuery w _ _ :=
    match w.replies with
    | [] => (Except.error (GoError.collaborator "no reply"), w)
    | r :: rs => (r, { w with replies := rs })
  FindDOHEndpoint w _ := (Except.error (GoError.collaborator "no endpoint"), w)
  RequestKey w _ := (none, w)
  StartUpdate w _ := (none, w)
  UpdateParsedRR w _ := (none, w)
  RemoveParsedRR w _ := (none, w)
  RemoveParsedRRset w _ := (none, w)
  RemoveParsedName w _ := (none, w)
  SignUpdate w := (w.signer, w)
  UnsignedUpdate w _ := (w.signer, w)

/-- A world whose transport gives the listed replies and whose signer is not
asked. -/
def script (replies : List (Except GoError Msg)) : Script :=
  { replies := replies, signer := Except.error (GoError.collaborator "unused") }

/-- The key of the examples: owner name "foo.example.com.". -/
def exampleKey : KEY :=
  { Hdr := ⟨"foo.example.com."⟩, Flags := 512, Protocol := 3, Algorithm := 15,
    PublicKey := "q83vEjRWeJA=" }

/-- A response with the given code and answers. -/
def reply (rcode : Int) (answer : List RR) : Except GoError Msg :=
  Except.ok { Rcode := rcode, Question := [], Answer := answer, Ns := [] }

/-- The endpoint of the examples. -/
def exampleDOH : String := "https://doh.example.net/dns-query"

/-- The PTR record that queues the example key in the zone "example.com.". -/
def examplePTR : PTR :=
  { Hdr := ⟨"_signal.example.com."⟩, Ptr := "foo._signal.example.com." }

/-- A PTR record that queues another key in the zone "example.com.". -/
def otherPTR : PTR :=
  { Hdr := ⟨"_signal.example.com."⟩, Ptr := "bar._signal.example.com." }

/-- The KEY query the scripted collaborators build for the example key. -/
def exampleKeyQuery : Msg :=
  { Rcode := 0, Question := [⟨"foo.example.com.", TypeKEY⟩], Answer := [], Ns := [] }

/-- The PTR query the scripted collaborators build for the zone "example.com.". -/
def examplePtrQuery : Msg :=
  { Rcode := 0, Question := [⟨"_signal.example.com.", TypePTR⟩], Answer := [], Ns := [] }

/-- A near miss of the example key: it differs in the algorithm only. -/
def nearMissKey : KEY :=
  { exampleKey with Algorithm := 13 }

/-- A record that is not a KEY record. -/
def strayRecord : RR :=
  RR.other ⟨"foo.example.com."⟩ 16

/-- An update message, as a signer may build it. -/
def exampleUpdate : Msg :=
  { Rcode := 0, Question := [⟨"example.com.", 6⟩], Answer := [],
    Ns := [RR.other ⟨"foo.example.com."⟩ 1] }

/-! ## Strings -/

theorem hasSuffix_append (a b : String) : HasSuffix (a ++ b) b = true := by
  simp [HasSuffix, String.data_append]

theorem trimSuffix_append (a b : String) : TrimSuffix (a ++ b) b = a := by
  simp [TrimSuffix, hasSuffix_append, String.data_append]

theorem hasSuffix_iff (s t : String) : HasSuffix s t = true ↔ ∃ a : String, s = a ++ t := by
  constructor
  · intro h
    simp only [HasSuffix, Bool.and_eq_true, decide_eq_true_eq, beq_iff_eq] at h
    refine ⟨String.mk (s.data.take (s.data.length - t.data.length)), ?_⟩
    apply String.ext
    rw [String.data_append]
    have key := List.take_append_drop (s.data.length - t.data.length) s.data
    rw [h.2] at key
    exact key.symm
  · rintro ⟨a, rfl⟩
    exact hasSuffix_append a t

theorem signalKeyRRName_eq (keyFqdn zone : String) :
    signalKeyRRName keyFqdn zone =
      (TrimSuffix keyFqdn ("." ++ zone) ++ ".") ++ ("_signal." ++ zone) := by
  have h : SignalSubzonePrefix ++ "." = "_signal." := by decide
  simp only [signalKeyRRName, String.append_assoc]
  rw [← String.append_assoc SignalSubzonePrefix, h]

theorem signalPtrRRName_eq (zone : String) : signalPtrRRName zone = "_signal." ++ zone := by
  have h : SignalSubzonePrefix ++ "." = "_signal." := by decide
  simp only [signalPtrRRName, h]

/-! ## C5: the enrollment-marker name -/

/-- C5, as the code has it: for all key names `k` and zones `z` the
enrollment-marker name ends with "_signal." followed by `z`, and without that
suffix it is `k` trimmed of "." followed by `z`, followed by a dot; when `k`
ends with "." followed by `z` (the key lies below the zone), this is `k` with
`z` removed from its end. -/
theorem signalKeyRRName_spec (k z : String) :
    HasSuffix (signalKeyRRName k z) ("_signal." ++ z) = true ∧
    TrimSuffix (signalKeyRRName k z) ("_signal." ++ z) = TrimSuffix k ("." ++ z) ++ "." ∧
    (HasSuffix k ("." ++ z) = true →
      TrimSuffix (signalKeyRRName k z) ("_signal." ++ z) = TrimSuffix k z) := by
  rw [signalKeyRRName_eq]
  refine ⟨hasSuffix_append _ _, trimSuffix_append _ _, ?_⟩
  intro h
  obtain ⟨label, rfl⟩ := (hasSuffix_iff k ("." ++ z)).1 h
  rw [trimSuffix_append, trimSuffix_append, ← String.append_assoc, trimSuffix_append]

/-- Witness of C5: the key "foo.example.com." in the zone "example.com.". -/
theorem signalKeyRRName_spec_witness :
    HasSuffix "foo.example.com." ("." ++ "example.com.") = true ∧
    TrimSuffix (signalKeyRRName "foo.example.com." "example.com.")
      ("_signal." ++ "example.com.") = TrimSuffix "foo.example.com." "example.com." :=
  ⟨by decide, (signalKeyRRName_spec "foo.example.com." "example.com.").2.2 (by decide)⟩

/-- Counterexample to C5 as stated: for the key at the apex of its zone
(`k = z = "example.com."`) the marker without its suffix is "example.com..",
while `k` with `z` removed from its end is empty. -/
theorem signalKeyRRName_apex_counterexample :
    ¬ (TrimSuffix (signalKeyRRName "example.com." "example.com.")
        ("_signal." ++ "example.com.") = TrimSuffix "example.com." "example.com.") ∧
    signalKeyRRName "example.com." "example.com." = "example.com.._signal.example.com." := by
  decide

/-! ## The two answer loops -/

theorem formatBool_eq_true (b : Bool) : FormatBool b = "true" ↔ b = true := by
  cases b <;> decide

theorem formatBool_eq_false (b : Bool) : FormatBool b = "false" ↔ b = false := by
  cases b <;> decide

/-- On answers that are all KEY records the first loop ends without error,
and `keyRRExists` says whether some answer is the loaded key. -/
theorem keyAnswerLoop_allKEY (key : KEY) (answers : List RR)
    (hall : ∀ rr ∈ answers, ∃ k, rr = RR.KEY k) :
    ∃ b, keyAnswerLoop key answers = Except.ok b ∧
      (b = true ↔ ∃ k, RR.KEY k ∈ answers ∧ sameKey k key) := by
  induction answers with
  | nil => exact ⟨false, rfl, by simp⟩
  | cons rr rest ih =>
    obtain ⟨k, rfl⟩ := hall rr (List.mem_cons_self _ _)
    obtain ⟨b, hb, hiff⟩ := ih (fun x hx => hall x (List.mem_cons_of_mem _ hx))
    by_cases hk : sameKey k key
    · exact ⟨true, by simp [keyAnswerLoop, hk],
        fun _ => ⟨k, List.mem_cons_self _ _, hk⟩, fun _ => rfl⟩
    · refine ⟨b, by simp [keyAnswerLoop, hk, hb], ?_⟩
      rw [hiff]
      constructor
      · rintro ⟨k2, hmem, hsame⟩
        exact ⟨k2, List.mem_cons_of_mem _ hmem, hsame⟩
      · rintro ⟨k2, hmem, hsame⟩
        rcases List.mem_cons.1 hmem with heq | hmem
        · cases heq; exact absurd hsame hk
        · exact ⟨k2, hmem, hsame⟩

/-- On answers that are all PTR records the second loop ends without error,
and `signalPTRExists` says whether some target is the marker name. -/
theorem ptrAnswerLoop_allPTR (name : String) (answers : List RR)
    (hall : ∀ rr ∈ answers, ∃ p, rr = RR.PTR p) :
    ∃ b, ptrAnswerLoop name answers = Except.ok b ∧
      (b = true ↔ ∃ p, RR.PTR p ∈ answers ∧ p.Ptr = name) := by
  induction answers with
  | nil => exact ⟨false, rfl, by simp⟩
  | cons rr rest ih =>
    obtain ⟨p, rfl⟩ := hall rr (List.mem_cons_self _ _)
    obtain ⟨b, hb, hiff⟩ := ih (fun x hx => hall x (List.mem_cons_of_mem _ hx))
    by_cases hp : p.Ptr = name
    · exact ⟨true, by simp [ptrAnswerLoop, hp],
        fun _ => ⟨p, List.mem_cons_self _ _, hp⟩, fun _ => rfl⟩
    · refine ⟨b, by simp [ptrAnswerLoop, hp, hb], ?_⟩
      rw [hiff]
      constructor
      · rintro ⟨p2, hmem, hsame⟩
        exact ⟨p2, List.mem_cons_of_mem _ hmem, hsame⟩
      · rintro ⟨p2, hmem, hsame⟩
        rcases List.mem_cons.1 hmem with heq | hmem
        · cases heq; exact absurd hsame hp
        · exact ⟨p2, hmem, hsame⟩

/-- A record that is not a KEY record, met before any answer that is the
loaded key, ends the first loop with the error of line 135. -/
theorem keyAnswerLoop_wrongType (key : KEY) (bad : RR) (post : List RR)
    (hbad : ∀ k, bad ≠ RR.KEY k) :
    ∀ (before : List KEY), (∀ k ∈ before, ¬ sameKey k key) →
      keyAnswerLoop key (before.map RR.KEY ++ bad :: post) =
        Except.error (GoError.notKEYType bad) := by
  intro before
  induction before with
  | nil =>
    intro _
    cases bad with
    | KEY k => exact absurd rfl (hbad k)
    | PTR p => rfl
    | other h t => rfl
  | cons k rest ih =>
    intro hno
    have hk : ¬ sameKey k key := hno k (List.mem_cons_self _ _)
    simp only [List.map_cons, List.cons_append, keyAnswerLoop, hk, if_false]
    exact ih (fun x hx => hno x (List.mem_cons_of_mem _ hx))

/-- A record that is not a PTR record, met before any answer whose target is
the marker name, ends the second loop with the error of line 180. -/
theorem ptrAnswerLoop_wrongType (name : String) (bad : RR) (post : List RR)
    (hbad : ∀ p, bad ≠ RR.PTR p) :
    ∀ (before : List PTR), (∀ p ∈ before, p.Ptr ≠ name) →
      ptrAnswerLoop name (before.map RR.PTR ++ bad :: post) =
        Except.error (GoError.notPTRType bad) := by
  intro before
  induction before with
  | nil =>
    intro _
    cases bad with
    | KEY k => rfl
    | PTR p => exact absurd rfl (hbad p)
    | other h t => rfl
  | cons p rest ih =>
    intro hno
    have hp : ¬ p.Ptr = name := hno p (List.mem_cons_self _ _)
    simp only [List.map_cons, List.cons_append, ptrAnswerLoop, hp, if_false]
    exact ih (fun x hx => hno x (List.mem_cons_of_mem _ hx))

/-- A PTR record whose target is the marker name, with only PTR records
before it, ends the second loop with `signalPTRExists` set. -/
theorem ptrAnswerLoop_found (name : String) (hit : PTR) (post : List RR)
    (hhit : hit.Ptr = name) :
    ∀ (before : List PTR),
      ptrAnswerLoop name (before.map RR.PTR ++ RR.PTR hit :: post) = Except.ok true := by
  intro before
  induction before with
  | nil => simp [ptrAnswerLoop, hhit]
  | cons p rest ih =>
    by_cases hp : p.Ptr = name
    · simp [ptrAnswerLoop, hp]
    · simpa [ptrAnswerLoop, hp] using ih

/-! ## The part of checkKeyStatus after the first switch -/

/-- The shapes of a run of lines 156-202: it rejects once or resolves once,
a resolve carries `keyRRExists` as it was handed over. -/
theorem checkKeyStatusSignal_shape {σ : Type} (c : Collab σ)
    (keyFqdn zone dohServer : String) (keyRRExists : Bool) (answerKeyRR : Msg) (w : σ) :
    (∃ v, (checkKeyStatusSignal c keyFqdn zone dohServer keyRRExists answerKeyRR w).1 =
        [Event.QueryPTR (signalPtrRRName zone), Event.reject v]) ∨
    (∃ m v, (checkKeyStatusSignal c keyFqdn zone dohServer keyRRExists answerKeyRR w).1 =
        [Event.QueryPTR (signalPtrRRName zone), Event.SendDOHQuery dohServer m,
          Event.reject v]) ∨
    (∃ m q, (checkKeyStatusSignal c keyFqdn zone dohServer keyRRExists answerKeyRR w).1 =
        [Event.QueryPTR (signalPtrRRName zone), Event.SendDOHQuery dohServer m,
          Event.resolve (JSValue.status
            { QueuePTRExists := FormatBool q, KeyRRExists := FormatBool keyRRExists })]) := by
  rcases hq : c.QueryPTR w (signalPtrRRName zone) with ⟨_ | msgSigPtr, w1⟩
  · simp only [checkKeyStatusSignal, hq]
    exact Or.inl ⟨_, rfl⟩
  · rcases hs : c.SendDOHQuery w1 dohServer msgSigPtr with ⟨_ | answerSignalPtr, w2⟩
    · simp only [checkKeyStatusSignal, hq, hs]
      exact Or.inr (Or.inl ⟨_, _, rfl⟩)
    · by_cases h0 : answerSignalPtr.Rcode = RcodeSuccess
      · rcases hl : ptrAnswerLoop (signalKeyRRName keyFqdn zone) answerSignalPtr.Answer
          with err | b
        · simp only [checkKeyStatusSignal, hq, hs, h0, hl, if_true]
          exact Or.inr (Or.inl ⟨_, _, rfl⟩)
        · simp only [checkKeyStatusSignal, hq, hs, h0, hl, if_true]
          exact Or.inr (Or.inr ⟨_, b, rfl⟩)
      · by_cases h3 : answerSignalPtr.Rcode = RcodeNameError
        · simp only [checkKeyStatusSignal, hq, hs, h0, h3, if_true, if_false]
          exact Or.inr (Or.inr ⟨_, false, rfl⟩)
        · simp only [checkKeyStatusSignal, hq, hs, h0, h3, if_false]
          exact Or.inr (Or.inl ⟨_, _, rfl⟩)

/-- A resolve in a run of lines 156-202 carries the status object with
`keyRRExists` as handed over. -/
theorem checkKeyStatusSignal_resolve {σ : Type} (c : Collab σ)
    (keyFqdn zone dohServer : String) (keyRRExists : Bool) (answerKeyRR : Msg) (w : σ)
    (v : JSValue)
    (hv : Event.resolve v ∈
      (checkKeyStatusSignal c keyFqdn zone dohServer keyRRExists answerKeyRR w).1) :
    ∃ q, v = JSValue.status
      { QueuePTRExists := FormatBool q, KeyRRExists := FormatBool keyRRExists } := by
  rcases checkKeyStatusSignal_shape c keyFqdn zone dohServer keyRRExists answerKeyRR w with
    ⟨x, h⟩ | ⟨m, x, h⟩ | ⟨m, q, h⟩
  · rw [h] at hv; simp at hv
  · rw [h] at hv; simp at hv
  · rw [h] at hv
    simp at hv
    exact ⟨q, hv⟩

/-- Lines 175-202 when the PTR response has code success and the loop
ends without error. -/
theorem checkKeyStatusSignal_success {σ : Type} (c : Collab σ)
    (keyFqdn zone dohServer : String) (keyRRExists : Bool) (answerKeyRR : Msg)
    (w w1 w2 : σ) (msgSigPtr answerSignalPtr : Msg) (q : Bool)
    (hq : c.QueryPTR w (signalPtrRRName zone) = (Except.ok msgSigPtr, w1))
    (hs : c.SendDOHQuery w1 dohServer msgSigPtr = (Except.ok answerSignalPtr, w2))
    (hrc : answerSignalPtr.Rcode = RcodeSuccess)
    (hl : ptrAnswerLoop (signalKeyRRName keyFqdn zone) answerSignalPtr.Answer = Except.ok q) :
    (checkKeyStatusSignal c keyFqdn zone dohServer keyRRExists answerKeyRR w).1 =
      [Event.QueryPTR (signalPtrRRName zone), Event.SendDOHQuery dohServer msgSigPtr,
        Event.resolve (JSValue.status
          { QueuePTRExists := FormatBool q, KeyRRExists := FormatBool keyRRExists })] := by
  simp only [checkKeyStatusSignal, hq, hs, hrc, hl, if_true]

/-- Lines 175-183 when the loop over the PTR answers meets a wrong type. -/
theorem checkKeyStatusSignal_wrongType {σ : Type} (c : Collab σ)
    (keyFqdn zone dohServer : String) (keyRRExists : Bool) (answerKeyRR : Msg)
    (w w1 w2 : σ) (msgSigPtr answerSignalPtr : Msg) (err : GoError)
    (hq : c.QueryPTR w (signalPtrRRName zone) = (Except.ok msgSigPtr, w1))
    (hs : c.SendDOHQuery w1 dohServer msgSigPtr = (Except.ok answerSignalPtr, w2))
    (hrc : answerSignalPtr.Rcode = RcodeSuccess)
    (hl : ptrAnswerLoop (signalKeyRRName keyFqdn zone) answerSignalPtr.Answer =
      Except.error err) :
    (checkKeyStatusSignal c keyFqdn zone dohServer keyRRExists answerKeyRR w).1 =
      [Event.QueryPTR (signalPtrRRName zone), Event.SendDOHQuery dohServer msgSigPtr,
        Event.reject (jsErr err)] := by
  simp only [checkKeyStatusSignal, hq, hs, hrc, hl, if_true]

/-- Lines 175-202 when the PTR response says that the name does not exist. -/
theorem checkKeyStatusSignal_nameError {σ : Type} (c : Collab σ)
    (keyFqdn zone dohServer : String) (keyRRExists : Bool) (answerKeyRR : Msg)
    (w w1 w2 : σ) (msgSigPtr answerSignalPtr : Msg)
    (hq : c.QueryPTR w (signalPtrRRName zone) = (Except.ok msgSigPtr, w1))
    (hs : c.SendDOHQuery w1 dohServer msgSigPtr = (Except.ok answerSignalPtr, w2))
    (hrc : answerSignalPtr.Rcode = RcodeNameError) :
    (checkKeyStatusSignal c keyFqdn zone dohServer keyRRExists answerKeyRR w).1 =
      [Event.QueryPTR (signalPtrRRName zone), Event.SendDOHQuery dohServer msgSigPtr,
        Event.resolve (JSValue.status
          { QueuePTRExists := FormatBool false, KeyRRExists := FormatBool keyRRExists })] := by
  have h0 : ¬ (RcodeNameError = RcodeSuccess) := by decide
  simp only [checkKeyStatusSignal, hq, hs, hrc, h0, if_true, if_false]

/-! ## The first switch of checkKeyStatus -/

/-- The KEY response has code success and the loop ends without error: the
task goes on to line 156 with the loop's `keyRRExists`. -/
theorem checkKeyStatusTask_success {σ : Type} (c : Collab σ) (key : KEY)
    (keyFqdn zone dohServer : String) (w w1 w2 : σ) (msgKey answerKeyRR : Msg) (b : Bool)
    (hq : c.QueryKEY w keyFqdn = (Except.ok msgKey, w1))
    (hs : c.SendDOHQuery w1 dohServer msgKey = (Except.ok answerKeyRR, w2))
    (hrc : answerKeyRR.Rcode = RcodeSuccess)
    (hl : keyAnswerLoop key answerKeyRR.Answer = Except.ok b) :
    checkKeyStatusTask c key keyFqdn zone dohServer w =
      andThen [Event.QueryKEY keyFqdn, Event.SendDOHQuery dohServer msgKey]
        (checkKeyStatusSignal c keyFqdn zone dohServer b answerKeyRR w2) := by
  simp only [checkKeyStatusTask, hq, hs, hrc, hl, if_true]

/-- The KEY response has code success and the loop meets a wrong type: the
task rejects and returns. -/
theorem checkKeyStatusTask_wrongType {σ : Type} (c : Collab σ) (key : KEY)
    (keyFqdn zone dohServer : String) (w w1 w2 : σ) (msgKey answerKeyRR : Msg)
    (err : GoError)
    (hq : c.QueryKEY w keyFqdn = (Except.ok msgKey, w1))
    (hs : c.SendDOHQuery w1 dohServer msgKey = (Except.ok answerKeyRR, w2))
    (hrc : answerKeyRR.Rcode = RcodeSuccess)
    (hl : keyAnswerLoop key answerKeyRR.Answer = Except.error err) :
    checkKeyStatusTask c key keyFqdn zone dohServer w =
      ([Event.QueryKEY keyFqdn, Event.SendDOHQuery dohServer msgKey,
        Event.reject (jsErr err)], w2) := by
  simp only [checkKeyStatusTask, hq, hs, hrc, hl, if_true]

/-- The KEY response says that the name does not exist: the task goes on to
line 156 with `keyRRExists` false. -/
theorem checkKeyStatusTask_nameError {σ : Type} (c : Collab σ) (key : KEY)
    (keyFqdn zone dohServer : String) (w w1 w2 : σ) (msgKey answerKeyRR : Msg)
    (hq : c.QueryKEY w keyFqdn = (Except.ok msgKey, w1))
    (hs : c.SendDOHQuery w1 dohServer msgKey = (Except.ok answerKeyRR, w2))
    (hrc : answerKeyRR.Rcode = RcodeNameError) :
    checkKeyStatusTask c key keyFqdn zone dohServer w =
      andThen [Event.QueryKEY keyFqdn, Event.SendDOHQuery dohServer msgKey]
        (checkKeyStatusSignal c keyFqdn zone dohServer false answerKeyRR w2) := by
  have h0 : ¬ (RcodeNameError = RcodeSuccess) := by decide
  simp only [checkKeyStatusTask, hq, hs, hrc, h0, if_true, if_false]

/-- The KEY response has any other code: the task invokes `reject` and goes
on to line 156 all the same. -/
theorem checkKeyStatusTask_otherCode {σ : Type} (c : Collab σ) (key : KEY)
    (keyFqdn zone dohServer : String) (w w1 w2 : σ) (msgKey answerKeyRR : Msg)
    (hq : c.QueryKEY w keyFqdn = (Except.ok msgKey, w1))
    (hs : c.SendDOHQuery w1 dohServer msgKey = (Except.ok answerKeyRR, w2))
    (h0 : answerKeyRR.Rcode ≠ RcodeSuccess) (h3 : answerKeyRR.Rcode ≠ RcodeNameError) :
    checkKeyStatusTask c key keyFqdn zone dohServer w =
      andThen [Event.QueryKEY keyFqdn, Event.SendDOHQuery dohServer msgKey,
          Event.reject (jsErr (GoError.noKEYSuccess answerKeyRR))]
        (checkKeyStatusSignal c keyFqdn zone dohServer false answerKeyRR w2) := by
  simp only [checkKeyStatusTask, hq, hs, h0, h3, if_false]

/-- A resolve of the first part followed by a run of lines 156-202 is a
resolve of that run. -/
theorem resolve_mem_andThen {σ : Type} (done : List Event) (rest : List Event × σ)
    (hdone : ∀ e ∈ done, e.isSettle = false ∨ e.isReject = true) (v : JSValue)
    (hv : Event.resolve v ∈ (andThen done rest).1) : Event.resolve v ∈ rest.1 := by
  simp only [andThen, List.mem_append] at hv
  rcases hv with h | h
  · rcases hdone _ h with h2 | h2 <;> simp [Event.isSettle, Event.isReject] at h2
  · exact h

/-! ## C3: KeyRRExists -/

/-- C3: when the KEY response has code success and all its answers are KEY
records, every result the check resolves with reports KeyRRExists as "true"
if and only if some answer equals the loaded key on flags, protocol, algorithm
and public key, and as "false" otherwise. -/
theorem checkKeyStatus_keyRRExists {σ : Type} (c : Collab σ) (key : KEY)
    (keyFqdn zone dohServer : String) (w w1 w2 : σ) (msgKey answerKeyRR : Msg)
    (hq : c.QueryKEY w keyFqdn = (Except.ok msgKey, w1))
    (hs : c.SendDOHQuery w1 dohServer msgKey = (Except.ok answerKeyRR, w2))
    (hrc : answerKeyRR.Rcode = RcodeSuccess)
    (hall : ∀ rr ∈ answerKeyRR.Answer, ∃ k, rr = RR.KEY k)
    (v : JSValue)
    (hv : Event.resolve v ∈ (checkKeyStatusTask c key keyFqdn zone dohServer w).1) :
    ∃ r, v = JSValue.status r ∧
      (r.KeyRRExists = "true" ↔ ∃ k, RR.KEY k ∈ answerKeyRR.Answer ∧ sameKey k key) ∧
      (r.KeyRRExists = "false" ↔ ¬ ∃ k, RR.KEY k ∈ answerKeyRR.Answer ∧ sameKey k key) := by
  obtain ⟨b, hb, hiff⟩ := keyAnswerLoop_allKEY key answerKeyRR.Answer hall
  rw [checkKeyStatusTask_success c key keyFqdn zone dohServer w w1 w2 msgKey answerKeyRR b
    hq hs hrc hb] at hv
  have hv2 := resolve_mem_andThen _ _ (by simp [Event.isSettle]) v hv
  obtain ⟨q, rfl⟩ := checkKeyStatusSignal_resolve c keyFqdn zone dohServer b answerKeyRR w2 v hv2
  refine ⟨_, rfl, ?_, ?_⟩
  · rw [formatBool_eq_true, hiff]
  · rw [formatBool_eq_false, ← hiff]
    cases b <;> simp

/-- Witness of C3: the KEY response holds a near miss and then the key itself,
the PTR response says that the name does not exist; the check resolves with
KeyRRExists "true". -/
theorem checkKeyStatus_keyRRExists_witness :
    ∃ r, JSValue.status { QueuePTRExists := "false", KeyRRExists := "true" } =
        JSValue.status r ∧
      (r.KeyRRExists = "true" ↔
        ∃ k, RR.KEY k ∈ [RR.KEY nearMissKey, RR.KEY exampleKey] ∧ sameKey k exampleKey) ∧
      (r.KeyRRExists = "false" ↔
        ¬ ∃ k, RR.KEY k ∈ [RR.KEY nearMissKey, RR.KEY exampleKey] ∧ sameKey k exampleKey) :=
  checkKeyStatus_keyRRExists (scripted exampleKey) exampleKey "foo.example.com."
    "example.com." exampleDOH
    (script [reply 0 [RR.KEY nearMissKey, RR.KEY exampleKey], reply 3 []])
    _ _ _ { Rcode := 0, Question := [], Answer := [RR.KEY nearMissKey, RR.KEY exampleKey], Ns := [] }
    rfl rfl rfl (by simp) _ (by decide)

/-- Lines 156-173 when the PTR query can be built: it is sent to the
endpoint, and one invocation of `resolve` or `reject` follows. -/
theorem checkKeyStatusSignal_sent {σ : Type} (c : Collab σ)
    (keyFqdn zone dohServer : String) (keyRRExists : Bool) (answerKeyRR : Msg)
    (w w1 : σ) (msgSigPtr : Msg)
    (hq : c.QueryPTR w (signalPtrRRName zone) = (Except.ok msgSigPtr, w1)) :
    ∃ e, (checkKeyStatusSignal c keyFqdn zone dohServer keyRRExists answerKeyRR w).1 =
        [Event.QueryPTR (signalPtrRRName zone), Event.SendDOHQuery dohServer msgSigPtr, e] ∧
      e.isSettle = true := by
  rcases hs : c.SendDOHQuery w1 dohServer msgSigPtr with ⟨_ | answerSignalPtr, w2⟩
  · simp only [checkKeyStatusSignal, hq, hs]
    exact ⟨_, rfl, rfl⟩
  · by_cases h0 : answerSignalPtr.Rcode = RcodeSuccess
    · rcases hl : ptrAnswerLoop (signalKeyRRName keyFqdn zone) answerSignalPtr.Answer
        with err | b
      · simp only [checkKeyStatusSignal, hq, hs, h0, hl, if_true]
        exact ⟨_, rfl, rfl⟩
      · simp only [checkKeyStatusSignal, hq, hs, h0, hl, if_true]
        exact ⟨_, rfl, rfl⟩
    · by_cases h3 : answerSignalPtr.Rcode = RcodeNameError
      · simp only [checkKeyStatusSignal, hq, hs, h0, h3, if_true, if_false]
        exact ⟨_, rfl, rfl⟩
      · simp only [checkKeyStatusSignal, hq, hs, h0, h3, if_false]
        exact ⟨_, rfl, rfl⟩

/-- Whatever the first switch does, a resolve of the whole task is a resolve
of a run of lines 156-202 from the world left by the KEY query. -/
theorem checkKeyStatusTask_resolve {σ : Type} (c : Collab σ) (key : KEY)
    (keyFqdn zone dohServer : String) (w w1 w2 : σ) (msgKey answerKeyRR : Msg)
    (hq : c.QueryKEY w keyFqdn = (Except.ok msgKey, w1))
    (hs : c.SendDOHQuery w1 dohServer msgKey = (Except.ok answerKeyRR, w2))
    (v : JSValue)
    (hv : Event.resolve v ∈ (checkKeyStatusTask c key keyFqdn zone dohServer w).1) :
    ∃ b, Event.resolve v ∈
      (checkKeyStatusSignal c keyFqdn zone dohServer b answerKeyRR w2).1 := by
  by_cases h0 : answerKeyRR.Rcode = RcodeSuccess
  · rcases hl : keyAnswerLoop key answerKeyRR.Answer with err | b
    · rw [checkKeyStatusTask_wrongType c key keyFqdn zone dohServer w w1 w2 msgKey
        answerKeyRR err hq hs h0 hl] at hv
      simp at hv
    · rw [checkKeyStatusTask_success c key keyFqdn zone dohServer w w1 w2 msgKey
        answerKeyRR b hq hs h0 hl] at hv
      exact ⟨b, resolve_mem_andThen _ _ (by simp [Event.isSettle]) v hv⟩
  · by_cases h3 : answerKeyRR.Rcode = RcodeNameError
    · rw [checkKeyStatusTask_nameError c key keyFqdn zone dohServer w w1 w2 msgKey
        answerKeyRR hq hs h3] at hv
      exact ⟨false, resolve_mem_andThen _ _ (by simp [Event.isSettle]) v hv⟩
    · rw [checkKeyStatusTask_otherCode c key keyFqdn zone dohServer w w1 w2 msgKey
        answerKeyRR hq hs h0 h3] at hv
      exact ⟨false, resolve_mem_andThen _ _ (by simp [Event.isSettle, Event.isReject]) v hv⟩

/-! ## C4: QueuePTRExists, and scenario A -/

/-- C4: the KEY query and the PTR query both get a response, the PTR
response with code success.  (1) If the KEY response says that the name does
not exist, the key name is `label` "." `zone` and the PTR answers hold, after
PTR records only, a PTR record whose target is `label` "._signal." `zone`,
the check queries "_signal." `zone` and resolves with KeyRRExists "false" and
QueuePTRExists "true".  (2) If the PTR answers are all PTR records, every
result the check resolves with reports QueuePTRExists as "true" if and only
if some answer has the enrollment-marker name as its target. -/
theorem checkKeyStatus_queuePTRExists {σ : Type} (c : Collab σ) (key : KEY)
    (keyFqdn zone dohServer : String) (w w1 w2 w3 w4 : σ)
    (msgKey answerKeyRR msgSigPtr answerSignalPtr : Msg)
    (hq : c.QueryKEY w keyFqdn = (Except.ok msgKey, w1))
    (hs : c.SendDOHQuery w1 dohServer msgKey = (Except.ok answerKeyRR, w2))
    (hqp : c.QueryPTR w2 ("_signal." ++ zone) = (Except.ok msgSigPtr, w3))
    (hsp : c.SendDOHQuery w3 dohServer msgSigPtr = (Except.ok answerSignalPtr, w4))
    (hrcp : answerSignalPtr.Rcode = RcodeSuccess) :
    (∀ (label : String) (before : List PTR) (hit : PTR) (post : List RR),
      answerKeyRR.Rcode = RcodeNameError →
      keyFqdn = label ++ "." ++ zone →
      answerSignalPtr.Answer = before.map RR.PTR ++ RR.PTR hit :: post →
      hit.Ptr = label ++ "._signal." ++ zone →
      (checkKeyStatusTask c key keyFqdn zone dohServer w).1 =
        [Event.QueryKEY keyFqdn, Event.SendDOHQuery dohServer msgKey,
          Event.QueryPTR ("_signal." ++ zone), Event.SendDOHQuery dohServer msgSigPtr,
          Event.resolve (JSValue.status
            { QueuePTRExists := "true", KeyRRExists := "false" })]) ∧
    ((∀ rr ∈ answerSignalPtr.Answer, ∃ p, rr = RR.PTR p) →
      ∀ v, Event.resolve v ∈ (checkKeyStatusTask c key keyFqdn zone dohServer w).1 →
        ∃ r, v = JSValue.status r ∧
          (r.QueuePTRExists = "true" ↔
            ∃ p, RR.PTR p ∈ answerSignalPtr.Answer ∧
              p.Ptr = signalKeyRRName keyFqdn zone)) := by
  rw [← signalPtrRRName_eq] at hqp
  constructor
  · intro label before hit post hrc hk hans hhit
    have hname : signalKeyRRName keyFqdn zone = label ++ "._signal." ++ zone := by
      rw [signalKeyRRName_eq, hk, String.append_assoc label, trimSuffix_append]
      simp only [String.append_assoc]
      rfl
    have hl : ptrAnswerLoop (signalKeyRRName keyFqdn zone) answerSignalPtr.Answer =
        Except.ok true := by
      rw [hans]
      exact ptrAnswerLoop_found _ hit post (by rw [hhit, hname]) before
    rw [checkKeyStatusTask_nameError c key keyFqdn zone dohServer w w1 w2 msgKey
      answerKeyRR hq hs hrc]
    simp only [andThen]
    rw [checkKeyStatusSignal_success c keyFqdn zone dohServer false answerKeyRR w2 w3 w4
      msgSigPtr answerSignalPtr true hqp hsp hrcp hl, signalPtrRRName_eq]
    rfl
  · intro hall v hv
    obtain ⟨b, hb⟩ := checkKeyStatusTask_resolve c key keyFqdn zone dohServer w w1 w2
      msgKey answerKeyRR hq hs v hv
    obtain ⟨q, hq2, hiff⟩ := ptrAnswerLoop_allPTR (signalKeyRRName keyFqdn zone)
      answerSignalPtr.Answer hall
    rw [checkKeyStatusSignal_success c keyFqdn zone dohServer b answerKeyRR w2 w3 w4
      msgSigPtr answerSignalPtr q hqp hsp hrcp hq2] at hb
    simp only [List.mem_cons, List.mem_singleton, List.not_mem_nil, or_false] at hb
    rcases hb with hb | hb | hb
    · cases hb
    · cases hb
    · cases hb
      exact ⟨_, rfl, by rw [formatBool_eq_true, hiff]⟩

/-- Witness of C4, scenario A of the spec: the key "foo.example.com." in the
zone "example.com.", a KEY response "name does not exist", and a PTR response
with the one record "foo._signal.example.com."; and, for part (2), a PTR
response with two PTR records, the second of them the marker of the key. -/
theorem checkKeyStatus_scenarioA_witness :
    (checkKeyStatusTask (scripted exampleKey) exampleKey "foo.example.com." "example.com."
        exampleDOH (script [reply 3 [], reply 0 [RR.PTR examplePTR]])).1 =
      [Event.QueryKEY "foo.example.com.", Event.SendDOHQuery exampleDOH exampleKeyQuery,
        Event.QueryPTR ("_signal." ++ "example.com."),
        Event.SendDOHQuery exampleDOH examplePtrQuery,
        Event.resolve (JSValue.status
          { QueuePTRExists := "true", KeyRRExists := "false" })] ∧
    (∀ v, Event.resolve v ∈
        (checkKeyStatusTask (scripted exampleKey) exampleKey "foo.example.com."
          "example.com." exampleDOH
          (script [reply 3 [], reply 0 [RR.PTR otherPTR, RR.PTR examplePTR]])).1 →
      ∃ r, v = JSValue.status r ∧
        (r.QueuePTRExists = "true" ↔
          ∃ p, RR.PTR p ∈ [RR.PTR otherPTR, RR.PTR examplePTR] ∧
            p.Ptr = signalKeyRRName "foo.example.com." "example.com.")) :=
  ⟨(checkKeyStatus_queuePTRExists (scripted exampleKey) exampleKey "foo.example.com."
      "example.com." exampleDOH (script [reply 3 [], reply 0 [RR.PTR examplePTR]])
      _ _ _ _ _ { Rcode := 3, Question := [], Answer := [], Ns := [] } _
      { Rcode := 0, Question := [], Answer := [RR.PTR examplePTR], Ns := [] }
      rfl rfl rfl rfl rfl).1 "foo" [] examplePTR [] rfl (by decide) rfl (by decide),
   (checkKeyStatus_queuePTRExists (scripted exampleKey) exampleKey "foo.example.com."
      "example.com." exampleDOH
      (script [reply 3 [], reply 0 [RR.PTR otherPTR, RR.PTR examplePTR]])
      _ _ _ _ _ { Rcode := 3, Question := [], Answer := [], Ns := [] } _
      { Rcode := 0, Question := [], Answer := [RR.PTR otherPTR, RR.PTR examplePTR], Ns := [] }
      rfl rfl rfl rfl rfl).2 (by simp)⟩

/-! ## C6: "name does not exist" is not an error -/

/-- C6: (1) if the KEY response says that the name does not exist, the next
event after the KEY query is the building of the PTR query (no `reject` for
the KEY step); if that query can be built it is sent to the endpoint, one
invocation of `resolve` or `reject` ends the task, and every result resolved
with reports KeyRRExists "false".  (2) If the KEY step raised no error (name
does not exist, or code success with the loop ending on `keyRRExists = b`)
and the PTR response says that the name does not exist, the check resolves
with QueuePTRExists "false" and no `reject` is invoked. -/
theorem checkKeyStatus_nameError_is_negative {σ : Type} (c : Collab σ) (key : KEY)
    (keyFqdn zone dohServer : String) (w w1 w2 : σ) (msgKey answerKeyRR : Msg)
    (hq : c.QueryKEY w keyFqdn = (Except.ok msgKey, w1))
    (hs : c.SendDOHQuery w1 dohServer msgKey = (Except.ok answerKeyRR, w2)) :
    (answerKeyRR.Rcode = RcodeNameError →
      (∃ rest, (checkKeyStatusTask c key keyFqdn zone dohServer w).1 =
        Event.QueryKEY keyFqdn :: Event.SendDOHQuery dohServer msgKey ::
          Event.QueryPTR ("_signal." ++ zone) :: rest) ∧
      (∀ msgSigPtr w3, c.QueryPTR w2 ("_signal." ++ zone) = (Except.ok msgSigPtr, w3) →
        ∃ e, (checkKeyStatusTask c key keyFqdn zone dohServer w).1 =
          [Event.QueryKEY keyFqdn, Event.SendDOHQuery dohServer msgKey,
            Event.QueryPTR ("_signal." ++ zone), Event.SendDOHQuery dohServer msgSigPtr, e] ∧
          e.isSettle = true) ∧
      (∀ v, Event.resolve v ∈ (checkKeyStatusTask c key keyFqdn zone dohServer w).1 →
        ∃ r, v = JSValue.status r ∧ r.KeyRRExists = "false")) ∧
    (∀ (b : Bool) (msgSigPtr answerSignalPtr : Msg) (w3 w4 : σ),
      ((answerKeyRR.Rcode = RcodeNameError ∧ b = false) ∨
        (answerKeyRR.Rcode = RcodeSuccess ∧
          keyAnswerLoop key answerKeyRR.Answer = Except.ok b)) →
      c.QueryPTR w2 ("_signal." ++ zone) = (Except.ok msgSigPtr, w3) →
      c.SendDOHQuery w3 dohServer msgSigPtr = (Except.ok answerSignalPtr, w4) →
      answerSignalPtr.Rcode = RcodeNameError →
      (checkKeyStatusTask c key keyFqdn zone dohServer w).1 =
        [Event.QueryKEY keyFqdn, Event.SendDOHQuery dohServer msgKey,
          Event.QueryPTR ("_signal." ++ zone), Event.SendDOHQuery dohServer msgSigPtr,
          Event.resolve (JSValue.status
            { QueuePTRExists := "false", KeyRRExists := FormatBool b })]) := by
  simp only [← signalPtrRRName_eq]
  constructor
  · intro hrc
    rw [checkKeyStatusTask_nameError c key keyFqdn zone dohServer w w1 w2 msgKey
      answerKeyRR hq hs hrc]
    refine ⟨?_, ?_, ?_⟩
    · rcases checkKeyStatusSignal_shape c keyFqdn zone dohServer false answerKeyRR w2 with
        ⟨x, h⟩ | ⟨m, x, h⟩ | ⟨m, q, h⟩ <;>
      · simp only [andThen, h]
        exact ⟨_, rfl⟩
    · intro msgSigPtr w3 hqp
      obtain ⟨e, he, hset⟩ := checkKeyStatusSignal_sent c keyFqdn zone dohServer false
        answerKeyRR w2 w3 msgSigPtr hqp
      exact ⟨e, by simp only [andThen, he]; rfl, hset⟩
    · intro v hv
      have hv2 := resolve_mem_andThen _ _ (by simp [Event.isSettle]) v hv
      obtain ⟨q, rfl⟩ := checkKeyStatusSignal_resolve c keyFqdn zone dohServer false
        answerKeyRR w2 v hv2
      exact ⟨_, rfl, rfl⟩
  · intro b msgSigPtr answerSignalPtr w3 w4 hkey hqp hsp hrcp
    have hrun := checkKeyStatusSignal_nameError c keyFqdn zone dohServer b answerKeyRR
      w2 w3 w4 msgSigPtr answerSignalPtr hqp hsp hrcp
    rcases hkey with ⟨hrc, rfl⟩ | ⟨hrc, hl⟩
    · rw [checkKeyStatusTask_nameError c key keyFqdn zone dohServer w w1 w2 msgKey
        answerKeyRR hq hs hrc]
      simp only [andThen, hrun]
      rfl
    · rw [checkKeyStatusTask_success c key keyFqdn zone dohServer w w1 w2 msgKey
        answerKeyRR b hq hs hrc hl]
      simp only [andThen, hrun]
      rfl

/-- Witness of C6: both responses say that the name does not exist; the check
builds and sends the PTR query after the KEY response and resolves with both
facts "false". -/
theorem checkKeyStatus_nameError_witness :
    ((∃ rest, (checkKeyStatusTask (scripted exampleKey) exampleKey "foo.example.com."
          "example.com." exampleDOH (script [reply 3 [], reply 3 []])).1 =
        Event.QueryKEY "foo.example.com." :: Event.SendDOHQuery exampleDOH exampleKeyQuery ::
          Event.QueryPTR ("_signal." ++ "example.com.") :: rest) ∧
      (∀ msgSigPtr w3,
        (scripted exampleKey).QueryPTR (script [reply 3 []]) ("_signal." ++ "example.com.") =
          (Except.ok msgSigPtr, w3) →
        ∃ e, (checkKeyStatusTask (scripted exampleKey) exampleKey "foo.example.com."
            "example.com." exampleDOH (script [reply 3 [], reply 3 []])).1 =
          [Event.QueryKEY "foo.example.com.", Event.SendDOHQuery exampleDOH exampleKeyQuery,
            Event.QueryPTR ("_signal." ++ "example.com."),
            Event.SendDOHQuery exampleDOH msgSigPtr, e] ∧
          e.isSettle = true) ∧
      (∀ v, Event.resolve v ∈
          (checkKeyStatusTask (scripted exampleKey) exampleKey "foo.example.com."
            "example.com." exampleDOH (script [reply 3 [], reply 3 []])).1 →
        ∃ r, v = JSValue.status r ∧ r.KeyRRExists = "false")) ∧
    (checkKeyStatusTask (scripted exampleKey) exampleKey "foo.example.com." "example.com."
        exampleDOH (script [reply 3 [], reply 3 []])).1 =
      [Event.QueryKEY "foo.example.com.", Event.SendDOHQuery exampleDOH exampleKeyQuery,
        Event.QueryPTR ("_signal." ++ "example.com."),
        Event.SendDOHQuery exampleDOH examplePtrQuery,
        Event.resolve (JSValue.status
          { QueuePTRExists := "false", KeyRRExists := FormatBool false })] :=
  ⟨(checkKeyStatus_nameError_is_negative (scripted exampleKey) exampleKey "foo.example.com."
      "example.com." exampleDOH (script [reply 3 [], reply 3 []])
      _ (script [reply 3 []]) _ { Rcode := 3, Question := [], Answer := [], Ns := [] }
      rfl rfl).1 rfl,
   (checkKeyStatus_nameError_is_negative (scripted exampleKey) exampleKey "foo.example.com."
      "example.com." exampleDOH (script [reply 3 [], reply 3 []])
      _ _ _ { Rcode := 3, Question := [], Answer := [], Ns := [] } rfl rfl).2
      false _ { Rcode := 3, Question := [], Answer := [], Ns := [] } _ _
      (Or.inl ⟨rfl, rfl⟩) rfl rfl rfl⟩

/-! ## C7: answers of the wrong type -/

/-- C7, as the code has it: a record of the wrong type aborts the check when
no answer before it ends the loop (scanning stops at the first match).
(1) KEY response with code success, answers being KEY records that are not
the loaded key, then a record that is not a KEY record: the task rejects with
the error of line 135 and ends; no PTR query, no result.  (2) PTR response
with code success, answers being PTR records with other targets, then a
record that is not a PTR record: no result is resolved, and the task ends
with the `reject` of line 181 (or has ended with that of line 136). -/
theorem checkKeyStatus_wrongType_aborts {σ : Type} (c : Collab σ) (key : KEY)
    (keyFqdn zone dohServer : String) (w w1 w2 : σ) (msgKey answerKeyRR : Msg)
    (hq : c.QueryKEY w keyFqdn = (Except.ok msgKey, w1))
    (hs : c.SendDOHQuery w1 dohServer msgKey = (Except.ok answerKeyRR, w2)) :
    (∀ (before : List KEY) (bad : RR) (post : List RR),
      answerKeyRR.Rcode = RcodeSuccess →
      answerKeyRR.Answer = before.map RR.KEY ++ bad :: post →
      (∀ k ∈ before, ¬ sameKey k key) →
      (∀ k, bad ≠ RR.KEY k) →
      (checkKeyStatusTask c key keyFqdn zone dohServer w).1 =
        [Event.QueryKEY keyFqdn, Event.SendDOHQuery dohServer msgKey,
          Event.reject (jsErr (GoError.notKEYType bad))]) ∧
    (∀ (msgSigPtr answerSignalPtr : Msg) (w3 w4 : σ)
      (before : List PTR) (bad : RR) (post : List RR),
      c.QueryPTR w2 ("_signal." ++ zone) = (Except.ok msgSigPtr, w3) →
      c.SendDOHQuery w3 dohServer msgSigPtr = (Except.ok answerSignalPtr, w4) →
      answerSignalPtr.Rcode = RcodeSuccess →
      answerSignalPtr.Answer = before.map RR.PTR ++ bad :: post →
      (∀ p ∈ before, p.Ptr ≠ signalKeyRRName keyFqdn zone) →
      (∀ p, bad ≠ RR.PTR p) →
      (∀ v, Event.resolve v ∉ (checkKeyStatusTask c key keyFqdn zone dohServer w).1) ∧
      ((checkKeyStatusTask c key keyFqdn zone dohServer w).1.getLast? =
          some (Event.reject (jsErr (GoError.notPTRType bad))) ∨
        ∃ rr, (checkKeyStatusTask c key keyFqdn zone dohServer w).1 =
          [Event.QueryKEY keyFqdn, Event.SendDOHQuery dohServer msgKey,
            Event.reject (jsErr (GoError.notKEYType rr))])) := by
  constructor
  · intro before bad post hrc hans hno hbad
    have hl : keyAnswerLoop key answerKeyRR.Answer =
        Except.error (GoError.notKEYType bad) := by
      rw [hans]
      exact keyAnswerLoop_wrongType key bad post hbad before hno
    rw [checkKeyStatusTask_wrongType c key keyFqdn zone dohServer w w1 w2 msgKey
      answerKeyRR _ hq hs hrc hl]
  · intro msgSigPtr answerSignalPtr w3 w4 before bad post hqp hsp hrcp hans hno hbad
    rw [← signalPtrRRName_eq] at hqp
    have hl : ptrAnswerLoop (signalKeyRRName keyFqdn zone) answerSignalPtr.Answer =
        Except.error (GoError.notPTRType bad) := by
      rw [hans]
      exact ptrAnswerLoop_wrongType _ bad post hbad before hno
    have hrun : ∀ b, (checkKeyStatusSignal c keyFqdn zone dohServer b answerKeyRR w2).1 =
        [Event.QueryPTR (signalPtrRRName zone), Event.SendDOHQuery dohServer msgSigPtr,
          Event.reject (jsErr (GoError.notPTRType bad))] := fun b =>
      checkKeyStatusSignal_wrongType c keyFqdn zone dohServer b answerKeyRR w2 w3 w4
        msgSigPtr answerSignalPtr _ hqp hsp hrcp hl
    constructor
    · intro v hv
      obtain ⟨b, hb⟩ := checkKeyStatusTask_resolve c key keyFqdn zone dohServer w w1 w2
        msgKey answerKeyRR hq hs v hv
      rw [hrun b] at hb
      simp at hb
    · by_cases h0 : answerKeyRR.Rcode = RcodeSuccess
      · rcases hk : keyAnswerLoop key answerKeyRR.Answer with err | b
        · right
          rw [checkKeyStatusTask_wrongType c key keyFqdn zone dohServer w w1 w2 msgKey
            answerKeyRR err hq hs h0 hk]
          have : ∃ rr, err = GoError.notKEYType rr := by
            clear hl hans hrun
            generalize answerKeyRR.Answer = answers at hk
            induction answers with
            | nil => simp [keyAnswerLoop] at hk
            | cons rr rest ih =>
              cases rr with
              | KEY k =>
                by_cases hsame : sameKey k key
                · simp [keyAnswerLoop, hsame] at hk
                · simp only [keyAnswerLoop, hsame, if_false] at hk
                  exact ih hk
              | PTR p =>
                simp only [keyAnswerLoop, Except.error.injEq] at hk
                exact ⟨_, hk.symm⟩
              | other h t =>
                simp only [keyAnswerLoop, Except.error.injEq] at hk
                exact ⟨_, hk.symm⟩
          obtain ⟨rr, rfl⟩ := this
          exact ⟨rr, rfl⟩
        · left
          rw [checkKeyStatusTask_success c key keyFqdn zone dohServer w w1 w2 msgKey
            answerKeyRR b hq hs h0 hk]
          simp [andThen, hrun]
      · by_cases h3 : answerKeyRR.Rcode = RcodeNameError
        · left
          rw [checkKeyStatusTask_nameError c key keyFqdn zone dohServer w w1 w2 msgKey
            answerKeyRR hq hs h3]
          simp [andThen, hrun]
        · left
          rw [checkKeyStatusTask_otherCode c key keyFqdn zone dohServer w w1 w2 msgKey
            answerKeyRR hq hs h0 h3]
          simp [andThen, hrun]

/-- Witness of C7: (1) the KEY response holds a near miss and then a record
of another type; the task rejects and ends.  (2) The PTR response holds the
marker of another key and then a record of another type; nothing is resolved
and the task ends with the `reject` of line 181. -/
theorem checkKeyStatus_wrongType_witness :
    (checkKeyStatusTask (scripted exampleKey) exampleKey "foo.example.com." "example.com."
        exampleDOH
        (script [reply 0 [RR.KEY nearMissKey, strayRecord, RR.KEY exampleKey]])).1 =
      [Event.QueryKEY "foo.example.com.", Event.SendDOHQuery exampleDOH exampleKeyQuery,
        Event.reject (jsErr (GoError.notKEYType strayRecord))] ∧
    ((∀ v, Event.resolve v ∉
        (checkKeyStatusTask (scripted exampleKey) exampleKey "foo.example.com."
          "example.com." exampleDOH
          (script [reply 3 [], reply 0 [RR.PTR otherPTR, strayRecord, RR.PTR examplePTR]])).1) ∧
      ((checkKeyStatusTask (scripted exampleKey) exampleKey "foo.example.com."
          "example.com." exampleDOH
          (script [reply 3 [], reply 0 [RR.PTR otherPTR, strayRecord, RR.PTR examplePTR]])
          ).1.getLast? = some (Event.reject (jsErr (GoError.notPTRType strayRecord))) ∨
        ∃ rr, (checkKeyStatusTask (scripted exampleKey) exampleKey "foo.example.com."
          "example.com." exampleDOH
          (script [reply 3 [], reply 0 [RR.PTR otherPTR, strayRecord, RR.PTR examplePTR]])).1 =
          [Event.QueryKEY "foo.example.com.", Event.SendDOHQuery exampleDOH exampleKeyQuery,
            Event.reject (jsErr (GoError.notKEYType rr))])) :=
  ⟨(checkKeyStatus_wrongType_aborts (scripted exampleKey) exampleKey "foo.example.com."
      "example.com." exampleDOH
      (script [reply 0 [RR.KEY nearMissKey, strayRecord, RR.KEY exampleKey]])
      _ _ _ { Rcode := 0, Question := [],
              Answer := [RR.KEY nearMissKey, strayRecord, RR.KEY exampleKey], Ns := [] }
      rfl rfl).1 [nearMissKey] strayRecord [RR.KEY exampleKey] rfl rfl (by decide)
      (by intro k h; cases h),
   (checkKeyStatus_wrongType_aborts (scripted exampleKey) exampleKey "foo.example.com."
      "example.com." exampleDOH
      (script [reply 3 [], reply 0 [RR.PTR otherPTR, strayRecord, RR.PTR examplePTR]])
      _ _ _ { Rcode := 3, Question := [], Answer := [], Ns := [] } rfl rfl).2
      _ { Rcode := 0, Question := [],
          Answer := [RR.PTR otherPTR, strayRecord, RR.PTR examplePTR], Ns := [] } _ _
      [otherPTR] strayRecord [RR.PTR examplePTR] rfl rfl rfl rfl (by decide)
      (by intro p h; cases h)⟩

/-- Counterexample to C7 as stated: the KEY response with code success holds
the loaded key and, after it, a record that is not a KEY record; the loop
stops at the match, no `reject` is invoked and the check resolves. -/
theorem checkKeyStatus_wrongType_after_match :
    strayRecord ∈ [RR.KEY exampleKey, strayRecord] ∧
    (∀ k, strayRecord ≠ RR.KEY k) ∧
    (checkKeyStatusTask (scripted exampleKey) exampleKey "foo.example.com." "example.com."
        exampleDOH
        (script [reply 0 [RR.KEY exampleKey, strayRecord], reply 3 []])).1 =
      [Event.QueryKEY "foo.example.com.",
        Event.SendDOHQuery exampleDOH exampleKeyQuery,
        Event.QueryPTR "_signal.example.com.",
        Event.SendDOHQuery exampleDOH examplePtrQuery,
        Event.resolve (JSValue.status
          { QueuePTRExists := "false", KeyRRExists := "true" })] :=
  ⟨by decide, (by intro k h; cases h), by decide⟩

/-! ## C1 and C2: the `default` case of the first switch -/

/-- The `default` case of the first switch, for every collaborator: after the
`reject` of line 153 the task builds the PTR query. -/
theorem checkKeyStatusTask_otherCode_goes_on {σ : Type} (c : Collab σ) (key : KEY)
    (keyFqdn zone dohServer : String) (w w1 w2 : σ) (msgKey answerKeyRR : Msg)
    (hq : c.QueryKEY w keyFqdn = (Except.ok msgKey, w1))
    (hs : c.SendDOHQuery w1 dohServer msgKey = (Except.ok answerKeyRR, w2))
    (h0 : answerKeyRR.Rcode ≠ RcodeSuccess) (h3 : answerKeyRR.Rcode ≠ RcodeNameError) :
    ∃ rest, rest ≠ [] ∧ (checkKeyStatusTask c key keyFqdn zone dohServer w).1 =
      Event.QueryKEY keyFqdn :: Event.SendDOHQuery dohServer msgKey ::
        Event.reject (jsErr (GoError.noKEYSuccess answerKeyRR)) ::
        Event.QueryPTR ("_signal." ++ zone) :: rest := by
  rw [checkKeyStatusTask_otherCode c key keyFqdn zone dohServer w w1 w2 msgKey
    answerKeyRR hq hs h0 h3, ← signalPtrRRName_eq]
  rcases checkKeyStatusSignal_shape c keyFqdn zone dohServer false answerKeyRR w2 with
    ⟨x, h⟩ | ⟨m, x, h⟩ | ⟨m, q, h⟩ <;>
  · simp only [andThen, h]
    exact ⟨_, by simp, rfl⟩

/-- C1 at the failing input: the KEY response has code 2 (server failure) and
the PTR response says that the name does not exist.  The task invokes
`reject`, then builds and sends the PTR query, then invokes `resolve`. -/
theorem checkKeyStatus_servfail_run :
    (checkKeyStatusTask (scripted exampleKey) exampleKey "foo.example.com." "example.com."
        exampleDOH
        (script [reply 2 [], reply 3 []])).1 =
      [Event.QueryKEY "foo.example.com.",
        Event.SendDOHQuery exampleDOH exampleKeyQuery,
        Event.reject (jsErr (GoError.noKEYSuccess
          { Rcode := 2, Question := [], Answer := [], Ns := [] })),
        Event.QueryPTR "_signal.example.com.",
        Event.SendDOHQuery exampleDOH examplePtrQuery,
        Event.resolve (JSValue.status
          { QueuePTRExists := "false", KeyRRExists := "false" })] := by
  decide

/-- C2 at the failing input: the KEY response has code 5 (refused) and the PTR
response holds the marker of the key.  The task of `checkKeyStatus` invokes
`reject` and later `resolve`, with two collaborator calls in between. -/
theorem checkKeyStatus_refused_settles_twice :
    settleCount
      (checkKeyStatusTask (scripted exampleKey) exampleKey "foo.example.com." "example.com."
        exampleDOH
        (script [reply 5 [], reply 0 [RR.PTR examplePTR]])).1 = 2 ∧
    callAfterReject
      (checkKeyStatusTask (scripted exampleKey) exampleKey "foo.example.com." "example.com."
        exampleDOH
        (script [reply 5 [], reply 0 [RR.PTR examplePTR]])).1 = true ∧
    ¬ CompletionContract
      (checkKeyStatusTask (scripted exampleKey) exampleKey "foo.example.com." "example.com."
        exampleDOH
        (script [reply 5 [], reply 0 [RR.PTR examplePTR]])).1 := by
  decide

/-- The task of `findDOHEndpoint` keeps the completion contract. -/
theorem findDOHEndpointTask_contract {σ : Type} (c : Collab σ) (dohDomain : String) (w : σ) :
    CompletionContract (findDOHEndpointTask c dohDomain w).1 := by
  rcases h : c.FindDOHEndpoint w dohDomain with ⟨_ | _, w1⟩ <;>
    simp [findDOHEndpointTask, h, CompletionContract, settleCount, callAfterReject,
      Event.isSettle, Event.isReject, Event.isCall]

/-- The task of `newKeyRequest` keeps the completion contract. -/
theorem newKeyRequestTask_contract {σ : Type} (c : Collab σ) (domainName : String) (w : σ) :
    CompletionContract (newKeyRequestTask c domainName w).1 := by
  rcases h : c.RequestKey w domainName with ⟨_ | _, w1⟩ <;>
    simp [newKeyRequestTask, h, CompletionContract, settleCount, callAfterReject,
      Event.isSettle, Event.isReject, Event.isCall]

/-- The task of `signedUpdate` keeps the completion contract. -/
theorem signedUpdate_contract {σ : Type} (c : Collab σ) (u : Updater) (w : σ) :
    CompletionContract (Updater.signedUpdate c u w).1 := by
  rcases h : c.SignUpdate w with ⟨_ | msg, w1⟩
  · simp [Updater.signedUpdate, h, CompletionContract, settleCount, callAfterReject,
      Event.isSettle, Event.isReject, Event.isCall]
  · rcases h2 : c.SendDOHQuery w1 u.dohServer msg with ⟨_ | answer, w2⟩
    · simp [Updater.signedUpdate, h, h2, CompletionContract, settleCount, callAfterReject,
        Event.isSettle, Event.isReject, Event.isCall]
    · by_cases h0 : answer.Rcode = RcodeSuccess <;>
        simp [Updater.signedUpdate, h, h2, h0, CompletionContract, settleCount,
          callAfterReject, Event.isSettle, Event.isReject, Event.isCall]

/-- The task of `unsignedUpdate` keeps the completion contract. -/
theorem unsignedUpdate_contract {σ : Type} (c : Collab σ) (u : Updater) (w : σ) :
    CompletionContract (Updater.unsignedUpdate c u w).1 := by
  rcases h : c.UnsignedUpdate w u.zone with ⟨_ | msg, w1⟩
  · simp [Updater.unsignedUpdate, h, CompletionContract, settleCount, callAfterReject,
      Event.isSettle, Event.isReject, Event.isCall]
  · rcases h2 : c.SendDOHQuery w1 u.dohServer msg with ⟨_ | answer, w2⟩
    · simp [Updater.unsignedUpdate, h, h2, CompletionContract, settleCount, callAfterReject,
        Event.isSettle, Event.isReject, Event.isCall]
    · by_cases h0 : answer.Rcode = RcodeSuccess <;>
        simp [Updater.unsignedUpdate, h, h2, h0, CompletionContract, settleCount,
          callAfterReject, Event.isSettle, Event.isReject, Event.isCall]

/-- A run of lines 156-202 keeps the completion contract, also after the two
collaborator calls of the KEY step. -/
theorem checkKeyStatusSignal_contract {σ : Type} (c : Collab σ)
    (keyFqdn zone dohServer : String) (keyRRExists : Bool) (answerKeyRR : Msg) (w : σ)
    (msgKey : Msg) :
    CompletionContract (andThen [Event.QueryKEY keyFqdn, Event.SendDOHQuery dohServer msgKey]
      (checkKeyStatusSignal c keyFqdn zone dohServer keyRRExists answerKeyRR w)).1 := by
  rcases checkKeyStatusSignal_shape c keyFqdn zone dohServer keyRRExists answerKeyRR w with
    ⟨x, h⟩ | ⟨m, x, h⟩ | ⟨m, q, h⟩ <;>
  · simp [andThen, h, CompletionContract, settleCount, callAfterReject,
      Event.isSettle, Event.isReject, Event.isCall]

/-- The task of `checkKeyStatus` keeps the completion contract on every path
but the `default` case of the first switch, where it never does. -/
theorem checkKeyStatusTask_contract_iff {σ : Type} (c : Collab σ) (key : KEY)
    (keyFqdn zone dohServer : String) (w : σ) :
    CompletionContract (checkKeyStatusTask c key keyFqdn zone dohServer w).1 ↔
      ¬ ∃ msgKey w1 answerKeyRR w2,
        c.QueryKEY w keyFqdn = (Except.ok msgKey, w1) ∧
        c.SendDOHQuery w1 dohServer msgKey = (Except.ok answerKeyRR, w2) ∧
        answerKeyRR.Rcode ≠ RcodeSuccess ∧ answerKeyRR.Rcode ≠ RcodeNameError := by
  rcases hq : c.QueryKEY w keyFqdn with ⟨_ | msgKey, w1⟩
  · simp [checkKeyStatusTask, hq, CompletionContract, settleCount, callAfterReject,
      Event.isSettle, Event.isReject, Event.isCall]
  · rcases hs : c.SendDOHQuery w1 dohServer msgKey with ⟨_ | answerKeyRR, w2⟩
    · have hno : ∀ (x : Msg) (y : σ), c.SendDOHQuery w1 dohServer msgKey =
          (Except.ok x, y) → False := by
        intro x y hxy
        rw [hs] at hxy
        cases hxy
      simp only [checkKeyStatusTask, hq, hs]
      constructor
      · rintro - ⟨m, x, a, y, hm, hsend, -⟩
        cases hm
        exact hno a y hsend
      · intro _
        simp [CompletionContract, settleCount, callAfterReject,
          Event.isSettle, Event.isReject, Event.isCall]
    · have hiff : (∃ m x a y, (Except.ok msgKey, w1) = ((Except.ok m : Except GoError Msg), x) ∧
            c.SendDOHQuery x dohServer m = (Except.ok a, y) ∧
            a.Rcode ≠ RcodeSuccess ∧ a.Rcode ≠ RcodeNameError) ↔
          (answerKeyRR.Rcode ≠ RcodeSuccess ∧ answerKeyRR.Rcode ≠ RcodeNameError) := by
        constructor
        · rintro ⟨m, x, a, y, hm, hsend, h⟩
          cases hm
          rw [hs] at hsend
          cases hsend
          exact h
        · intro h
          exact ⟨msgKey, w1, answerKeyRR, w2, rfl, hs, h⟩
      rw [hiff]
      by_cases h0 : answerKeyRR.Rcode = RcodeSuccess
      · rcases hl : keyAnswerLoop key answerKeyRR.Answer with err | b
        · rw [checkKeyStatusTask_wrongType c key keyFqdn zone dohServer w w1 w2 msgKey
            answerKeyRR err hq hs h0 hl]
          simp [h0, CompletionContract, settleCount, callAfterReject,
            Event.isSettle, Event.isReject, Event.isCall]
        · rw [checkKeyStatusTask_success c key keyFqdn zone dohServer w w1 w2 msgKey
            answerKeyRR b hq hs h0 hl]
          simp only [h0, ne_eq, not_true_eq_false, false_and, not_false_eq_true, iff_true]
          exact checkKeyStatusSignal_contract c keyFqdn zone dohServer b answerKeyRR w2
            msgKey
      · by_cases h3 : answerKeyRR.Rcode = RcodeNameError
        · rw [checkKeyStatusTask_nameError c key keyFqdn zone dohServer w w1 w2 msgKey
            answerKeyRR hq hs h3]
          simp only [h3, ne_eq, not_true_eq_false, and_false, not_false_eq_true, iff_true]
          exact checkKeyStatusSignal_contract c keyFqdn zone dohServer false answerKeyRR w2
            msgKey
        · obtain ⟨rest, hne, hrun⟩ := checkKeyStatusTask_otherCode_goes_on c key keyFqdn zone
            dohServer w w1 w2 msgKey answerKeyRR hq hs h0 h3
          rw [hrun]
          simp [h0, h3, CompletionContract, settleCount, callAfterReject,
            Event.isSettle, Event.isReject, Event.isCall]

/-! ## C8: the two finalizers -/

/-- C8: both finalizers keep the contract of a finalizer, with the message
built by `SignUpdate` and by `UnsignedUpdate` of the updater's zone, and send
to the endpoint the updater was created with: they resolve, with `null`, if and
only if building, sending and the response code succeed; otherwise they reject
with the first error in that order, and send nothing when building fails. -/
theorem finalizers_contract {σ : Type} (c : Collab σ) (u : Updater) (w : σ) :
    FinalizerContract c u.dohServer (c.SignUpdate w) Event.SignUpdate
      (Updater.signedUpdate c u w).1 ∧
    FinalizerContract c u.dohServer (c.UnsignedUpdate w u.zone) (Event.UnsignedUpdate u.zone)
      (Updater.unsignedUpdate c u w).1 ∧
    (∀ (keyName zone dohServer : String) (w0 : σ) (made : Updater) (rest : List Event × σ),
      newUpdater c [keyName, zone, dohServer] w0 = (Except.ok made, rest) →
      made.dohServer = dohServer) := by
  refine ⟨?_, ?_, ?_⟩
  · rcases h : c.SignUpdate w with ⟨err | msg, w1⟩
    · simp [FinalizerContract, Updater.signedUpdate, h]
    · rcases h2 : c.SendDOHQuery w1 u.dohServer msg with ⟨err | answer, w2⟩
      · simp only [FinalizerContract, Updater.signedUpdate, h, h2]
        aesop
      · by_cases h0 : answer.Rcode = RcodeSuccess <;>
        · simp only [FinalizerContract, Updater.signedUpdate, h, h2, h0]
          aesop
  · rcases h : c.UnsignedUpdate w u.zone with ⟨err | msg, w1⟩
    · simp [FinalizerContract, Updater.unsignedUpdate, h]
    · rcases h2 : c.SendDOHQuery w1 u.dohServer msg with ⟨err | answer, w2⟩
      · simp only [FinalizerContract, Updater.unsignedUpdate, h, h2]
        aesop
      · by_cases h0 : answer.Rcode = RcodeSuccess <;>
        · simp only [FinalizerContract, Updater.unsignedUpdate, h, h2, h0]
          aesop
  · intro keyName zone dohServer w0 made rest hmade
    simp only [newUpdater] at hmade
    rcases hl : c.LoadKeyFile w0 keyName with ⟨err | key, w1⟩
    · simp [hl] at hmade
    · rcases hst : c.StartUpdate w1 zone with ⟨_ | err, w2⟩
      · simp only [hl, hst, Prod.mk.injEq, Except.ok.injEq] at hmade
        rw [← hmade.1]
      · simp [hl, hst] at hmade

/-- Witness of C8, scenarios B and C of the spec: a transport that answers
with code success makes `signedUpdate` resolve with `null`; a transport that
answers with code 5 (refused) makes `unsignedUpdate` reject with that
response. -/
theorem finalizers_contract_witness :
    (Updater.signedUpdate (scripted exampleKey)
        { zone := "example.com.", dohServer := exampleDOH }
        { replies := [reply 0 []], signer := Except.ok exampleUpdate }).1 =
      [Event.SignUpdate,
        Event.SendDOHQuery exampleDOH exampleUpdate,
        Event.resolve JSValue.null] ∧
    (Updater.unsignedUpdate (scripted exampleKey)
        { zone := "example.com.", dohServer := exampleDOH }
        { replies := [reply 5 []], signer := Except.ok exampleUpdate }).1 =
      [Event.UnsignedUpdate "example.com.",
        Event.SendDOHQuery exampleDOH exampleUpdate,
        Event.reject (jsErr (GoError.noSuccess
          { Rcode := 5, Question := [], Answer := [], Ns := [] }))] :=
  ⟨(finalizers_contract (scripted exampleKey)
      { zone := "example.com.", dohServer := exampleDOH }
      { replies := [reply 0 []], signer := Except.ok exampleUpdate }).1.2.2.2.2.2
      _ _ { Rcode := 0, Question := [], Answer := [], Ns := [] } _ rfl rfl rfl,
   (finalizers_contract (scripted exampleKey)
      { zone := "example.com.", dohServer := exampleDOH }
      { replies := [reply 5 []], signer := Except.ok exampleUpdate }).2.1.2.2.2.2.1
      _ _ { Rcode := 5, Question := [], Answer := [], Ns := [] } _ rfl rfl (by decide)⟩

/-! ## C9: an updater is used once -/

theorem commit_consumes {τ : Type} (m : SignerModel) (base : Collab τ) (u : Updater)
    (f : Finalizer) (w : Session × τ) :
    (Updater.commit (withSpecSigner m base) u f w).2.1.consumed = true := by
  cases f
  · by_cases hc : w.1.consumed = true
    · simp [Updater.commit, Updater.signedUpdate, withSpecSigner, onSession,
        Session.signUpdate, hc]
    · rcases hsign : m.sign w.1 with err | msg
      · simp [Updater.commit, Updater.signedUpdate, withSpecSigner, onSession,
          Session.signUpdate, hc, hsign]
      · rcases hsend : base.SendDOHQuery w.2 u.dohServer msg with ⟨err | answer, t⟩
        · simp [Updater.commit, Updater.signedUpdate, withSpecSigner, onSession,
            besideSession, Session.signUpdate, hc, hsign, hsend]
        · by_cases h0 : answer.Rcode = RcodeSuccess <;>
            simp [Updater.commit, Updater.signedUpdate, withSpecSigner, onSession,
              besideSession, Session.signUpdate, hc, hsign, hsend, h0]
  · by_cases hc : w.1.consumed = true
    · simp [Updater.commit, Updater.unsignedUpdate, withSpecSigner, onSession,
        Session.buildUnsignedUpdate, hc]
    · rcases hsign : m.buildUnsigned w.1 u.zone with err | msg
      · simp [Updater.commit, Updater.unsignedUpdate, withSpecSigner, onSession,
          Session.buildUnsignedUpdate, hc, hsign]
      · rcases hsend : base.SendDOHQuery w.2 u.dohServer msg with ⟨err | answer, t⟩
        · simp [Updater.commit, Updater.unsignedUpdate, withSpecSigner, onSession,
            besideSession, Session.buildUnsignedUpdate, hc, hsign, hsend]
        · by_cases h0 : answer.Rcode = RcodeSuccess <;>
            simp [Updater.commit, Updater.unsignedUpdate, withSpecSigner, onSession,
              besideSession, Session.buildUnsignedUpdate, hc, hsign, hsend, h0]

theorem stage_keeps_consumed (m : SignerModel) (kind : StagingKind) (text : String)
    (s : Session) : (Session.stage m kind text s).2.consumed = s.consumed := by
  unfold Session.stage
  cases m.parseRR kind text <;> rfl

theorem stagingResult_world {σ : Type} (r : Option GoError × σ) :
    (stagingResult r).2 = r.2 := by
  rcases r with ⟨_ | err, w⟩ <;> rfl

theorem act_keeps_consumed {τ : Type} (m : SignerModel) (base : Collab τ) (u : Updater)
    (a : Action) (w : Session × τ) (hc : w.1.consumed = true) :
    (Updater.act (withSpecSigner m base) u a w).1.consumed = true := by
  cases a with
  | addRR rr =>
    simp only [Updater.act, Updater.addRR, stagingResult_world, withSpecSigner, onSession,
      stage_keeps_consumed, hc]
  | deleteRR rr =>
    simp only [Updater.act, Updater.deleteRR, stagingResult_world, withSpecSigner, onSession,
      stage_keeps_consumed, hc]
  | deleteRRset rr =>
    simp only [Updater.act, Updater.deleteRRset, stagingResult_world, withSpecSigner,
      onSession, stage_keeps_consumed, hc]
  | deleteName rr =>
    simp only [Updater.act, Updater.deleteName, stagingResult_world, withSpecSigner,
      onSession, stage_keeps_consumed, hc]
  | commit f => exact commit_consumes m base u f w

theorem actAll_keeps_consumed {τ : Type} (m : SignerModel) (base : Collab τ) (u : Updater)
    (as : List Action) :
    ∀ w : Session × τ, w.1.consumed = true →
      (Updater.actAll (withSpecSigner m base) u as w).1.consumed = true := by
  induction as with
  | nil => intro w hc; exact hc
  | cons a rest ih =>
    intro w hc
    exact ih _ (act_keeps_consumed m base u a w hc)

/-- C9, against the signer of the spec: once a finalizer has run on an
updater, whatever functions of the updater are called next, every further
finalizer asks the signer for the message, is refused, rejects and ends; it
sends nothing over the transport. -/
theorem updater_single_use {τ : Type} (m : SignerModel) (base : Collab τ) (u : Updater)
    (first second : Finalizer) (between : List Action) (w : Session × τ) :
    (Updater.commit (withSpecSigner m base) u second
        (Updater.actAll (withSpecSigner m base) u between
          (Updater.commit (withSpecSigner m base) u first w).2)).1 =
      [match second with
        | Finalizer.signed => Event.SignUpdate
        | Finalizer.unsigned => Event.UnsignedUpdate u.zone,
       Event.reject (jsErr m.reused)] ∧
    ∀ server msg, Event.SendDOHQuery server msg ∉
      (Updater.commit (withSpecSigner m base) u second
        (Updater.actAll (withSpecSigner m base) u between
          (Updater.commit (withSpecSigner m base) u first w).2)).1 := by
  have hc := actAll_keeps_consumed m base u between _ (commit_consumes m base u first w)
  generalize Updater.actAll (withSpecSigner m base) u between
    (Updater.commit (withSpecSigner m base) u first w).2 = w2 at hc
  have hrun : (Updater.commit (withSpecSigner m base) u second w2).1 =
      [match second with
        | Finalizer.signed => Event.SignUpdate
        | Finalizer.unsigned => Event.UnsignedUpdate u.zone,
       Event.reject (jsErr m.reused)] := by
    cases second
    · simp [Updater.commit, Updater.signedUpdate, withSpecSigner, onSession,
        Session.signUpdate, hc]
    · simp [Updater.commit, Updater.unsignedUpdate, withSpecSigner, onSession,
        Session.buildUnsignedUpdate, hc]
  refine ⟨hrun, ?_⟩
  intro server msg hmem
  rw [hrun] at hmem
  cases second <;> simp at hmem

/-- The wrapper has no guard of its own: with a signer that hands out the
message again, a second `signedUpdate` on the same updater sends again. -/
theorem signedUpdate_again_with_willing_signer :
    (Updater.signedUpdate (scripted exampleKey)
        { zone := "example.com.", dohServer := exampleDOH }
        (Updater.signedUpdate (scripted exampleKey)
          { zone := "example.com.", dohServer := exampleDOH }
          { replies := [reply 0 [], reply 0 []], signer := Except.ok exampleUpdate }).2).1 =
      [Event.SignUpdate,
        Event.SendDOHQuery exampleDOH exampleUpdate,
        Event.resolve JSValue.null] := by
  decide

/-! ## C10: the zone and its trailing dot -/

theorem zoneWithDot_hasSuffix (zone : String) : HasSuffix (zoneWithDot zone) "." = true := by
  unfold zoneWithDot
  by_cases h : HasSuffix zone "." = true
  · simp [h]
  · simp [h, hasSuffix_append]

/-- Every PTR query built by the task of `checkKeyStatus` is for the signal
subzone of the zone the task was given. -/
theorem checkKeyStatusTask_queryPTR {σ : Type} (c : Collab σ) (key : KEY)
    (keyFqdn zone dohServer : String) (w : σ) (n : String)
    (hn : Event.QueryPTR n ∈ (checkKeyStatusTask c key keyFqdn zone dohServer w).1) :
    n = "_signal." ++ zone := by
  rw [← signalPtrRRName_eq]
  have hsig : ∀ (b : Bool) (a : Msg) (x : σ),
      Event.QueryPTR n ∈ (checkKeyStatusSignal c keyFqdn zone dohServer b a x).1 →
      n = signalPtrRRName zone := by
    intro b a x hmem
    rcases checkKeyStatusSignal_shape c keyFqdn zone dohServer b a x with
      ⟨v, h⟩ | ⟨m, v, h⟩ | ⟨m, q, h⟩ <;>
    · rw [h] at hmem
      simpa using hmem
  rcases hq : c.QueryKEY w keyFqdn with ⟨_ | msgKey, w1⟩
  · simp [checkKeyStatusTask, hq] at hn
  · rcases hs : c.SendDOHQuery w1 dohServer msgKey with ⟨_ | answerKeyRR, w2⟩
    · simp [checkKeyStatusTask, hq, hs] at hn
    · by_cases h0 : answerKeyRR.Rcode = RcodeSuccess
      · rcases hl : keyAnswerLoop key answerKeyRR.Answer with err | b
        · rw [checkKeyStatusTask_wrongType c key keyFqdn zone dohServer w w1 w2 msgKey
            answerKeyRR err hq hs h0 hl] at hn
          simp at hn
        · rw [checkKeyStatusTask_success c key keyFqdn zone dohServer w w1 w2 msgKey
            answerKeyRR b hq hs h0 hl] at hn
          simp only [andThen, List.cons_append, List.nil_append, List.mem_cons] at hn
          rcases hn with hn | hn | hn
          · cases hn
          · cases hn
          · exact hsig _ _ _ hn
      · by_cases h3 : answerKeyRR.Rcode = RcodeNameError
        · rw [checkKeyStatusTask_nameError c key keyFqdn zone dohServer w w1 w2 msgKey
            answerKeyRR hq hs h3] at hn
          simp only [andThen, List.cons_append, List.nil_append, List.mem_cons] at hn
          rcases hn with hn | hn | hn
          · cases hn
          · cases hn
          · exact hsig _ _ _ hn
        · rw [checkKeyStatusTask_otherCode c key keyFqdn zone dohServer w w1 w2 msgKey
            answerKeyRR hq hs h0 h3] at hn
          simp only [andThen, List.cons_append, List.nil_append, List.mem_cons] at hn
          rcases hn with hn | hn | hn | hn
          · cases hn
          · cases hn
          · cases hn
          · exact hsig _ _ _ hn

/-- C10, as the code has it.  In `checkKeyStatus` the zone used is the input
with a dot appended when it has none and the input itself when it ends with a
dot; it always ends with a dot, doing it twice changes nothing, and the task
runs with that zone: its PTR queries are for "_signal." followed by it, and the
marker name is derived from it.  In `newUpdater` the wrapper appends nothing:
`StartUpdate` gets the zone as supplied, the updater keeps it as supplied, and
`unsignedUpdate` hands that same text to `UnsignedUpdate`. -/
theorem zone_trailing_dot {σ : Type} (c : Collab σ) (keyName zone dohServer : String)
    (w : σ) :
    (HasSuffix zone "." = false → zoneWithDot zone = zone ++ ".") ∧
    (HasSuffix zone "." = true → zoneWithDot zone = zone) ∧
    HasSuffix (zoneWithDot zone) "." = true ∧
    zoneWithDot (zoneWithDot zone) = zoneWithDot zone ∧
    (∀ key w1, c.LoadKeyFile w keyName = (Except.ok key, w1) →
      checkKeyStatus c [keyName, zone, dohServer] w =
        Returned.promise
          (checkKeyStatusTask c key key.Hdr.Name (zoneWithDot zone) dohServer w1) ∧
      ∀ n, Event.QueryPTR n ∈
          (checkKeyStatusTask c key key.Hdr.Name (zoneWithDot zone) dohServer w1).1 →
        n = "_signal." ++ zoneWithDot zone) ∧
    (∀ key w1 w2, c.LoadKeyFile w keyName = (Except.ok key, w1) →
      c.StartUpdate w1 zone = (none, w2) →
      newUpdater c [keyName, zone, dohServer] w =
        (Except.ok { zone := zone, dohServer := dohServer },
          [Event.LoadKeyFile keyName, Event.StartUpdate zone], w2)) ∧
    (∀ (u : Updater) (x : σ),
      (Updater.unsignedUpdate c u x).1.head? = some (Event.UnsignedUpdate u.zone)) := by
  refine ⟨?_, ?_, zoneWithDot_hasSuffix zone, ?_, ?_, ?_, ?_⟩
  · intro h
    simp [zoneWithDot, h]
  · intro h
    simp [zoneWithDot, h]
  · have h := zoneWithDot_hasSuffix zone
    generalize zoneWithDot zone = z at h
    simp [zoneWithDot, h]
  · intro key w1 hl
    refine ⟨by simp only [checkKeyStatus, hl], ?_⟩
    intro n hn
    exact checkKeyStatusTask_queryPTR c key _ _ _ _ n hn
  · intro key w1 w2 hl hst
    simp only [newUpdater, hl, hst]
  · intro u x
    rcases h : c.UnsignedUpdate x u.zone with ⟨err | msg, w1⟩
    · simp [Updater.unsignedUpdate, h]
    · rcases h2 : c.SendDOHQuery w1 u.dohServer msg with ⟨err | answer, w2⟩
      · simp [Updater.unsignedUpdate, h, h2]
      · by_cases h0 : answer.Rcode = RcodeSuccess <;>
          simp [Updater.unsignedUpdate, h, h2, h0]

/-- Witness of C10: the zone "example.com" becomes "example.com.", and
`checkKeyStatus` runs its task with that zone. -/
theorem zone_trailing_dot_witness :
    zoneWithDot "example.com" = "example.com" ++ "." ∧
    zoneWithDot "example.com." = "example.com." ∧
    checkKeyStatus (scripted exampleKey)
        ["Kfoo.example.com.+015+12345", "example.com", exampleDOH]
        (script [reply 3 [], reply 3 []]) =
      Returned.promise
        (checkKeyStatusTask (scripted exampleKey) exampleKey exampleKey.Hdr.Name
          (zoneWithDot "example.com") exampleDOH
          (script [reply 3 [], reply 3 []])) :=
  ⟨(zone_trailing_dot (scripted exampleKey) "Kfoo.example.com.+015+12345" "example.com"
      exampleDOH
      (script [reply 3 [], reply 3 []])).1 (by decide),
   (zone_trailing_dot (scripted exampleKey) "Kfoo.example.com.+015+12345" "example.com."
      exampleDOH
      (script [reply 3 [], reply 3 []])).2.1 (by decide),
   ((zone_trailing_dot (scripted exampleKey) "Kfoo.example.com.+015+12345" "example.com"
      exampleDOH
      (script [reply 3 [], reply 3 []])).2.2.2.2.1 _ _ rfl).1⟩

/-- Counterexample to C10 as stated: `newUpdater` called with the zone
"example.com", which has no trailing dot, calls `StartUpdate` with
"example.com", and the `unsignedUpdate` of the updater it returns calls
`UnsignedUpdate` with "example.com". -/
theorem newUpdater_zone_as_supplied :
    HasSuffix "example.com" "." = false ∧
    (newUpdater (scripted exampleKey)
        ["Kfoo.example.com.+015+12345", "example.com", exampleDOH]
        { replies := [reply 0 []], signer := Except.ok exampleUpdate }).2.1 =
      [Event.LoadKeyFile "Kfoo.example.com.+015+12345", Event.StartUpdate "example.com"] ∧
    (newUpdater (scripted exampleKey)
        ["Kfoo.example.com.+015+12345", "example.com", exampleDOH]
        { replies := [reply 0 []], signer := Except.ok exampleUpdate }).1 =
      Except.ok { zone := "example.com", dohServer := exampleDOH } ∧
    (Updater.unsignedUpdate (scripted exampleKey)
        { zone := "example.com", dohServer := exampleDOH }
        { replies := [reply 0 []], signer := Except.ok exampleUpdate }).1 =
      [Event.UnsignedUpdate "example.com",
        Event.SendDOHQuery exampleDOH exampleUpdate,
        Event.resolve JSValue.null] :=
  ⟨by decide, by decide, rfl, by decide⟩

end Sig0Wasm
